import Mathlib

/-!
# Node handler of the cluster API (`api/pkg/handler/node_v1.go`)

A shallow embedding of the node endpoints: the machine/node correlation of
`listNodesForCluster`, the lookup of `findMachineAndNode`, the status
projection (`outputNode`, `outputMachine`, `apiNodeStatus`,
`parseNodeConditions`) and the v1/v2 adapter.

Conventions of the embedding

* Go strings are Lean `String`s; the helpers of package `strings` work on the
  character list (the separator is ASCII, so byte and character suffixes agree
  on well-formed text).
* A Go pointer that may be nil is an `Option`.
* A Go map that is only copied is an optional association list.
* Instants and durations are integers counting nanoseconds; `time.Since` gets
  the current instant as an explicit argument.
* A call that can return an error or dereference a nil pointer returns a `Res`.
* Collaborators that are not part of the handler file (the stores, the
  machine conversions, the mapping to HTTP errors) are arguments.
-/

namespace Kubermatic

/-! ## Results and errors -/

/-- Error values the handler builds or passes on. -/
inductive Err where
  /-- an error value handed back by a collaborator -/
  | upstream (msg : String)
  /-- the result of `fmt.Errorf` with a format ending in `%v` of a cause -/
  | wrapped (context : String) (cause : Err)
  /-- the result of `fmt.Errorf` with no cause -/
  | plain (msg : String)
  /-- the result of `errors.NewBadRequest` -/
  | badRequest (msg : String)
  /-- the result of `NewNotFound(kind, name)` -/
  | notFound (kind : String) (name : String)
  deriving DecidableEq

/-- Outcome of a Go call: a value, a returned error, or a nil-pointer
dereference (a run-time panic, which is no error value and is never wrapped). -/
inductive Res (α : Type) where
  | ok (v : α)
  | err (e : Err)
  | nilDeref
  deriving DecidableEq

/-! ## Constants of the handler -/

/-- Separator between error texts (`errGlue`). -/
def errGlue : String := " & "

/-- Grace period, in minutes (`initialConditionParsingDelay`). -/
def initialConditionParsingDelay : Int := 5

/-- Nanoseconds in a minute (`time.Minute`). -/
def Minute : Int := 60 * 1000000000

/-- Condition type `corev1.NodeReady`. -/
def NodeReady : String := "Ready"

/-- Condition type `corev1.NodeKubeletConfigOk`. -/
def NodeKubeletConfigOk : String := "KubeletConfigOk"

/-- Condition status `corev1.ConditionTrue`. -/
def ConditionTrue : String := "True"

/-! ## Package `strings` and `time` -/

/-- Test of `strings.HasSuffix`. -/
def HasSuffix (s suffix : String) : Bool :=
  suffix.data.isSuffixOf s.data

/-- Result of `strings.TrimSuffix`: `s` without the given trailing suffix, once. -/
def TrimSuffix (s suffix : String) : String :=
  if HasSuffix s suffix then
    String.mk (s.data.take (s.data.length - suffix.data.length))
  else s

/-- Duration of `time.Since(t)` when the clock reads `now`. -/
def timeSince (now t : Int) : Int := now - t

/-- Test `d.Minutes() > k` for a duration `d` in nanoseconds and a whole
number `k` of minutes. `Minutes` is the whole minutes plus the remaining
nanoseconds over `6e10` as a float; for the small `k` used here that sum
exceeds `k` exactly when `d` exceeds `k` minutes. -/
def minutesExceed (d k : Int) : Bool := decide (d > k * Minute)

/-! ## Data model: the cluster objects -/

/-- String map that is only copied (`map[string]string`); `none` is nil. -/
abbrev StringMap := Option (List (String × String))

/-- An entry of `metav1.OwnerReference`. -/
structure OwnerReference where
  UID : String
  Controller : Option Bool
  deriving DecidableEq

/-- An entry of `corev1.NodeAddress`. -/
structure CoreNodeAddress where
  Type_ : String
  Address : String
  deriving DecidableEq

/-- An entry of `corev1.NodeCondition`. -/
structure NodeCondition where
  Type_ : String
  Status : String
  Reason : String
  Message : String
  deriving DecidableEq

/-- A `resource.Quantity`, kept as its canonical rendering. -/
structure Quantity where
  rendered : String
  deriving DecidableEq

/-- Rendering `q.String()` of a quantity. -/
def Quantity.String (q : Quantity) : String := q.rendered

/-- The zero quantity, rendered `0`. -/
def Quantity.zero : Quantity := { rendered := "0" }

/-- The two entries of a `corev1.ResourceList` the handler reads. -/
structure ResourceList where
  cpu : Option Quantity
  memory : Option Quantity
  deriving DecidableEq

/-- Accessor `Memory()`: the entry, or the zero quantity. -/
def ResourceList.Memory (r : ResourceList) : Quantity := r.memory.getD Quantity.zero

/-- Accessor `Cpu()`: the entry, or the zero quantity. -/
def ResourceList.Cpu (r : ResourceList) : Quantity := r.cpu.getD Quantity.zero

/-- The fields of `corev1.NodeSystemInfo` the handler reads. -/
structure NodeSystemInfo where
  OperatingSystem : String
  KubeletVersion : String
  Architecture : String
  deriving DecidableEq

/-- The fields of `corev1.NodeStatus` the handler reads. -/
structure CoreNodeStatus where
  Addresses : List CoreNodeAddress
  Conditions : List NodeCondition
  Allocatable : ResourceList
  Capacity : ResourceList
  NodeInfo : NodeSystemInfo
  deriving DecidableEq

/-- A runtime node (`corev1.Node`). -/
structure Node where
  Name : String
  UID : String
  Labels : StringMap
  Annotations : StringMap
  OwnerReferences : List OwnerReference
  CreationTimestamp : Int
  DeletionTimestamp : Option Int
  Status : CoreNodeStatus
  deriving DecidableEq

/-- A reference to another object (`corev1.ObjectReference`). -/
structure ObjectReference where
  UID : String
  deriving DecidableEq

/-- Versions of a machine (`MachineVersionInfo`). -/
structure MachineVersionInfo where
  Kubelet : String
  deriving DecidableEq

/-- The fields of `MachineSpec` the handler reads; `Name` is the declared name
of the node to be. `ProviderConfig` is only read by the machine conversions. -/
structure MachineSpec where
  Name : String
  Versions : MachineVersionInfo
  ProviderConfig : String
  deriving DecidableEq

/-- The fields of `MachineStatus` the handler reads. -/
structure MachineStatus where
  NodeRef : Option ObjectReference
  ErrorReason : Option String
  ErrorMessage : Option String
  deriving DecidableEq

/-- A provisioning record (`clusterv1alpha1.Machine`). -/
structure Machine where
  Name : String
  Namespace : String
  UID : String
  CreationTimestamp : Int
  DeletionTimestamp : Option Int
  Spec : MachineSpec
  Status : MachineStatus
  deriving DecidableEq

/-! ## Data model: the read models -/

/-- An address of the read model (`apiv2.NodeAddress`). -/
structure NodeAddress where
  Type_ : String
  Address : String
  deriving DecidableEq

/-- Resources of the read model (`apiv2.NodeResources`). -/
structure NodeResources where
  CPU : String
  Memory : String
  deriving DecidableEq

/-- Node info of the read model (`apiv2.NodeSystemInfo`). -/
structure ApiNodeSystemInfo where
  OperatingSystem : String
  KubeletVersion : String
  Architecture : String
  deriving DecidableEq

/-- Derived status of the read model (`apiv2.NodeStatus`). -/
structure NodeStatus where
  MachineName : String
  Capacity : NodeResources
  Allocatable : NodeResources
  Addresses : List NodeAddress
  NodeInfo : ApiNodeSystemInfo
  ErrorReason : String
  ErrorMessage : String
  deriving DecidableEq

/-- The zero value `apiv2.NodeStatus{}`. -/
def NodeStatus.zero : NodeStatus :=
  { MachineName := "", Capacity := ⟨"", ""⟩, Allocatable := ⟨"", ""⟩, Addresses := [],
    NodeInfo := ⟨"", "", ""⟩, ErrorReason := "", ErrorMessage := "" }

/-- A provider section of the cloud spec. Its fields are declared with the API
types and are not read by the handler. -/
structure ProviderSection where
  settings : String
  deriving DecidableEq

/-- Cloud spec of the read model (`apiv2.NodeCloudSpec`): one optional section
for each provider. -/
structure NodeCloudSpec where
  Digitalocean : Option ProviderSection
  AWS : Option ProviderSection
  Azure : Option ProviderSection
  Openstack : Option ProviderSection
  Hetzner : Option ProviderSection
  VSphere : Option ProviderSection
  deriving DecidableEq

/-- The zero value `apiv2.NodeCloudSpec{}`. -/
def NodeCloudSpec.zero : NodeCloudSpec := ⟨none, none, none, none, none, none⟩

/-- Operating system spec of the read model (`apiv2.OperatingSystemSpec`). Its
sections are declared with the API types and are not read by the handler. -/
structure OperatingSystemSpec where
  sections : List (String × String)
  deriving DecidableEq

/-- The zero value `apiv2.OperatingSystemSpec{}`. -/
def OperatingSystemSpec.zero : OperatingSystemSpec := ⟨[]⟩

/-- Versions of the read model (`apiv2.NodeVersionInfo`). -/
structure NodeVersionInfo where
  Kubelet : String
  deriving DecidableEq

/-- Spec of the read model (`apiv2.NodeSpec`), shared by both shapes. -/
structure NodeSpec where
  Cloud : NodeCloudSpec
  OperatingSystem : OperatingSystemSpec
  Versions : NodeVersionInfo
  deriving DecidableEq

/-- Metadata of the structured shape (`apiv2.LegacyObjectMeta`). -/
structure LegacyObjectMeta where
  Name : String
  DisplayName : String
  Labels : StringMap
  Annotations : StringMap
  DeletionTimestamp : Option Int
  CreationTimestamp : Int
  deriving DecidableEq

/-- The structured shape of the read model (`apiv2.LegacyNode`). -/
structure LegacyNode where
  Metadata : LegacyObjectMeta
  Spec : NodeSpec
  Status : NodeStatus
  deriving DecidableEq

/-- Metadata of the flat shape (`apiv1.ObjectMeta`). -/
structure ObjectMeta where
  ID : String
  Name : String
  DeletionTimestamp : Option Int
  CreationTimestamp : Int
  deriving DecidableEq

/-- The flat shape of the read model (`apiv1.Node`). -/
structure NodeV1 where
  ObjectMeta : ObjectMeta
  Spec : NodeSpec
  Status : NodeStatus
  deriving DecidableEq

/-! ## Version adapter -/

/-- Flat shape to structured shape (`convertNodeV1ToNodeV2`). -/
def convertNodeV1ToNodeV2 (nodeV1 : NodeV1) : LegacyNode :=
  { Metadata :=
      { Name := nodeV1.ObjectMeta.ID,
        DisplayName := nodeV1.ObjectMeta.Name,
        Labels := none,
        Annotations := none,
        CreationTimestamp := nodeV1.ObjectMeta.CreationTimestamp,
        DeletionTimestamp := nodeV1.ObjectMeta.DeletionTimestamp },
    Spec := nodeV1.Spec,
    Status := nodeV1.Status }

/-- Structured shape to flat shape (`convertNodeV2ToNodeV1`). -/
def convertNodeV2ToNodeV1 (nodeV2 : LegacyNode) : NodeV1 :=
  { ObjectMeta :=
      { ID := nodeV2.Metadata.Name,
        Name := nodeV2.Metadata.DisplayName,
        CreationTimestamp := nodeV2.Metadata.CreationTimestamp,
        DeletionTimestamp := nodeV2.Metadata.DeletionTimestamp },
    Spec := nodeV2.Spec,
    Status := nodeV2.Status }

/-- Structured list to flat list (`convertNodesV2ToNodesV1`). -/
def convertNodesV2ToNodesV1 (nodesV2 : List LegacyNode) : List NodeV1 :=
  nodesV2.map convertNodeV2ToNodeV1

/-! ## Status projection -/

/-- One round of the loop of `parseNodeConditions`. -/
def parseNodeConditionsStep (acc : String × String) (condition : NodeCondition) :
    String × String :=
  let goodConditionType := condition.Type_ == NodeReady || condition.Type_ == NodeKubeletConfigOk
  if goodConditionType && condition.Status != ConditionTrue then
    (acc.1 ++ (condition.Reason ++ errGlue), acc.2 ++ (condition.Message ++ errGlue))
  else if !goodConditionType && condition.Status == ConditionTrue then
    (acc.1 ++ (condition.Reason ++ errGlue), acc.2 ++ (condition.Message ++ errGlue))
  else acc

/-- Reason and message derived from the conditions of a node
(`parseNodeConditions`). -/
def parseNodeConditions (node : Node) : String × String :=
  node.Status.Conditions.foldl parseNodeConditionsStep ("", "")

/-- Status of the read model filled from a node (`apiNodeStatus`); `now` is the
reading of the clock. -/
def apiNodeStatus (status : NodeStatus) (inputNode : Node) (hideInitialNodeConditions : Bool)
    (now : Int) : NodeStatus :=
  let status := { status with
    Addresses := status.Addresses ++
      inputNode.Status.Addresses.map
        (fun (address : CoreNodeAddress) => NodeAddress.mk address.Type_ address.Address) }
  let status :=
    if !hideInitialNodeConditions ||
        minutesExceed (timeSince now inputNode.CreationTimestamp) initialConditionParsingDelay then
      let rm := parseNodeConditions inputNode
      { status with
        ErrorReason := status.ErrorReason ++ rm.1,
        ErrorMessage := status.ErrorMessage ++ rm.2 }
    else status
  { status with
    Allocatable :=
      { Memory := inputNode.Status.Allocatable.Memory.String,
        CPU := inputNode.Status.Allocatable.Cpu.String },
    Capacity :=
      { Memory := inputNode.Status.Capacity.Memory.String,
        CPU := inputNode.Status.Capacity.Cpu.String },
    NodeInfo :=
      { OperatingSystem := inputNode.Status.NodeInfo.OperatingSystem,
        KubeletVersion := inputNode.Status.NodeInfo.KubeletVersion,
        Architecture := inputNode.Status.NodeInfo.Architecture } }

/-- Read model of a node that has no machine (`outputNode`). -/
def outputNode (node : Node) (hideInitialNodeConditions : Bool) (now : Int) : LegacyNode :=
  let nodeStatus := apiNodeStatus NodeStatus.zero node hideInitialNodeConditions now
  let deletionTimestamp : Option Int :=
    match node.DeletionTimestamp with
    | some t => some t
    | none => none
  { Metadata :=
      { Name := node.Name,
        DisplayName := node.Name,
        Labels := node.Labels,
        Annotations := node.Annotations,
        DeletionTimestamp := deletionTimestamp,
        CreationTimestamp := node.CreationTimestamp },
    Spec :=
      { Versions := { Kubelet := "" },
        OperatingSystem := OperatingSystemSpec.zero,
        Cloud := NodeCloudSpec.zero },
    Status := nodeStatus }

/-- The two extractions of package `machineconversions`, which outputMachine
calls and which are not part of the handler file. -/
structure MachineConversions where
  GetAPIV2OperatingSystemSpec : Machine → Except Err OperatingSystemSpec
  GetAPIV2NodeCloudSpec : Machine → Except Err NodeCloudSpec

/-- Read model of a machine and, when there is one, its node (`outputMachine`). -/
def outputMachine (conv : MachineConversions) (machine : Machine) (node : Option Node)
    (hideInitialNodeConditions : Bool) (now : Int) : Res LegacyNode :=
  let displayName := machine.Spec.Name
  let labels : StringMap := some []
  let annotations : StringMap := some []
  let nodeStatus := { NodeStatus.zero with MachineName := machine.Name }
  let deletionTimestamp : Option Int :=
    match machine.DeletionTimestamp with
    | some t => some t
    | none => none
  -- lines 396-399: the message is dereferenced whenever the reason is set
  let withMachineError : Res NodeStatus :=
    match machine.Status.ErrorReason with
    | none => Res.ok nodeStatus
    | some errorReason =>
      match machine.Status.ErrorMessage with
      | none => Res.nilDeref
      | some errorMessage =>
        Res.ok { nodeStatus with
          ErrorReason := nodeStatus.ErrorReason ++ (errorReason ++ errGlue),
          ErrorMessage := nodeStatus.ErrorMessage ++ (errorMessage ++ errGlue) }
  match withMachineError with
  | Res.nilDeref => Res.nilDeref
  | Res.err e => Res.err e
  | Res.ok nodeStatus =>
    match conv.GetAPIV2OperatingSystemSpec machine with
    | Except.error e => Res.err (Err.wrapped "failed to get operating system spec from machine" e)
    | Except.ok operatingSystemSpec =>
      match conv.GetAPIV2NodeCloudSpec machine with
      | Except.error e => Res.err (Err.wrapped "failed to get node cloud spec from machine" e)
      | Except.ok cloudSpec =>
        let (displayName, labels, annotations, nodeStatus) :=
          match node with
          | some node =>
            (if node.Name != machine.Spec.Name then node.Name else displayName,
             node.Labels, node.Annotations,
             apiNodeStatus nodeStatus node hideInitialNodeConditions now)
          | none => (displayName, labels, annotations, nodeStatus)
        let nodeStatus := { nodeStatus with
          ErrorReason := TrimSuffix nodeStatus.ErrorReason errGlue,
          ErrorMessage := TrimSuffix nodeStatus.ErrorMessage errGlue }
        Res.ok
          { Metadata :=
              { Name := machine.Name,
                DisplayName := displayName,
                Labels := labels,
                Annotations := annotations,
                DeletionTimestamp := deletionTimestamp,
                CreationTimestamp := machine.CreationTimestamp },
            Spec :=
              { Versions := { Kubelet := machine.Spec.Versions.Kubelet },
                OperatingSystem := operatingSystemSpec,
                Cloud := cloudSpec },
            Status := nodeStatus }

/-! ## Correlation of machines and nodes -/

/-- A set of strings (`sets.String`), kept as the list of inserted items. -/
abbrev StringSet := List String

/-- The empty set (`sets.NewString()`). -/
def StringSet.NewString : StringSet := []

/-- Insertion of an item (`Insert`). -/
def StringSet.Insert (s : StringSet) (item : String) : StringSet := item :: s

/-- Membership of an item (`Has`). -/
def StringSet.Has (s : StringSet) (item : String) : Bool := s.contains item

/-- Test of the loop of `getNodeForMachine`: the node is the one the machine
references by UID, or it carries the name of the machine. -/
def nodeMatchesMachine (machine : Machine) (node : Node) : Bool :=
  (match machine.Status.NodeRef with
   | some ref => node.UID == ref.UID
   | none => false) || node.Name == machine.Name

/-- The first node of the list that matches the machine (`getNodeForMachine`). -/
def getNodeForMachine (machine : Machine) : List Node → Option Node
  | [] => none
  | node :: rest =>
    if nodeMatchesMachine machine node then some node
    else getNodeForMachine machine rest

/-- The controlling owner reference (`metav1.GetControllerOf`): the first owner
reference whose controller flag is set and true. -/
def GetControllerOf (node : Node) : Option OwnerReference :=
  node.OwnerReferences.find? (fun ref => ref.Controller == some true)

/-- The loop of `getMachineForNode`: the first machine with the given UID. -/
def firstMachineWithUID (uid : String) : List Machine → Option Machine
  | [] => none
  | machine :: rest =>
    if uid == machine.UID then some machine else firstMachineWithUID uid rest

/-- The machine that controls the node (`getMachineForNode`). -/
def getMachineForNode (node : Node) (machines : List Machine) : Option Machine :=
  match GetControllerOf node with
  | none => none
  | some ref => firstMachineWithUID ref.UID machines

/-- The first node of the list with the given name (first loop of
`findMachineAndNode`). -/
def firstNodeNamed (name : String) : List Node → Option Node
  | [] => none
  | n :: rest => if n.Name == name then some n else firstNodeNamed name rest

/-- The first machine of the list with the given name (second loop of
`findMachineAndNode`). -/
def firstMachineNamed (name : String) : List Machine → Option Machine
  | [] => none
  | m :: rest => if m.Name == name then some m else firstMachineNamed name rest

/-- The machine and the node of a name (`findMachineAndNode`); the two
arguments are the answers of the machine store and of the node store to the
list calls. -/
def findMachineAndNode (name : String) (machineList : Except Err (List Machine))
    (nodeList : Except Err (List Node)) : Res (Option Machine × Option Node) :=
  match machineList with
  | Except.error e => Res.err (Err.wrapped "failed to load machines from cluster" e)
  | Except.ok machines =>
    match nodeList with
    | Except.error e => Res.err (Err.wrapped "failed to load nodes from cluster" e)
    | Except.ok nodes =>
      let node := firstNodeNamed name nodes
      let machine := firstMachineNamed name machines
      -- node != nil && machine == nil
      let machine :=
        match node, machine with
        | some n, none => getMachineForNode n machines
        | _, _ => machine
      -- machine != nil && node == nil
      let node :=
        match machine, node with
        | some m, none => getNodeForMachine m nodes
        | _, _ => node
      Res.ok (machine, node)

/-- What one entry of the list answer was made from: a machine with or without
its node, or a node alone. -/
inductive CorrelatedEntity where
  /-- an entry made by `outputMachine` from a machine and the node found for it -/
  | ofMachine (machine : Machine) (node : Option Node)
  /-- an entry made by `outputNode` from a node no machine was matched with -/
  | ofNode (node : Node)
  deriving DecidableEq

/-- The machine of an entity, if it has one. -/
def CorrelatedEntity.machine : CorrelatedEntity → Option Machine
  | ofMachine machine _ => some machine
  | ofNode _ => none

/-- The node of an entity, if it has one. -/
def CorrelatedEntity.node : CorrelatedEntity → Option Node
  | ofMachine _ node => node
  | ofNode node => some node

/-- The loop over the machines of `listNodesForCluster` (lines 135-145), with
the entry kept as the pair it is made from instead of its read model. -/
def correlateMachines (nodes : List Node) :
    List Machine → List CorrelatedEntity × StringSet → List CorrelatedEntity × StringSet
  | [], acc => acc
  | machine :: rest, (entities, matchedMachineNodes) =>
    let node := getNodeForMachine machine nodes
    let matchedMachineNodes :=
      match node with
      | some n => matchedMachineNodes.Insert n.UID
      | none => matchedMachineNodes
    correlateMachines nodes rest (entities ++ [CorrelatedEntity.ofMachine machine node], matchedMachineNodes)

/-- The loop over the nodes of `listNodesForCluster` (lines 148-152), with the
entry kept as the node it is made from. -/
def correlateNodes (matchedMachineNodes : StringSet) :
    List Node → List CorrelatedEntity → List CorrelatedEntity
  | [], entities => entities
  | node :: rest, entities =>
    if !matchedMachineNodes.Has node.UID then
      correlateNodes matchedMachineNodes rest (entities ++ [CorrelatedEntity.ofNode node])
    else correlateNodes matchedMachineNodes rest entities

/-- The correlation of `listNodesForCluster`: the entries of the answer, each
as the machine and node it is made from. -/
def correlate (machines : List Machine) (nodes : List Node) : List CorrelatedEntity :=
  let afterMachines := correlateMachines nodes machines ([], StringSet.NewString)
  correlateNodes afterMachines.2 nodes afterMachines.1

/-- The loop over the machines of `listNodesForCluster` (lines 135-145). -/
def listMachinesLoop (conv : MachineConversions) (nodes : List Node)
    (hideInitialConditions : Bool) (now : Int) :
    List Machine → List LegacyNode × StringSet → Res (List LegacyNode × StringSet)
  | [], acc => Res.ok acc
  | machine :: rest, (nodesV2, matchedMachineNodes) =>
    let node := getNodeForMachine machine nodes
    let matchedMachineNodes :=
      match node with
      | some n => matchedMachineNodes.Insert n.UID
      | none => matchedMachineNodes
    match outputMachine conv machine node hideInitialConditions now with
    | Res.err e => Res.err (Err.wrapped ("failed to output machine " ++ machine.Name) e)
    | Res.nilDeref => Res.nilDeref
    | Res.ok outNode =>
      listMachinesLoop conv nodes hideInitialConditions now rest
        (nodesV2 ++ [outNode], matchedMachineNodes)

/-- The loop over the nodes of `listNodesForCluster` (lines 148-152). -/
def listNodesLoop (matchedMachineNodes : StringSet) (hideInitialConditions : Bool) (now : Int) :
    List Node → List LegacyNode → List LegacyNode
  | [], nodesV2 => nodesV2
  | node :: rest, nodesV2 =>
    if !matchedMachineNodes.Has node.UID then
      listNodesLoop matchedMachineNodes hideInitialConditions now rest
        (nodesV2 ++ [outputNode node hideInitialConditions now])
    else listNodesLoop matchedMachineNodes hideInitialConditions now rest nodesV2

/-! ## The endpoints -/

/-- The fields of the cluster object the handler reads. -/
structure Cluster where
  Name : String
  Version : String
  DatacenterName : String
  deriving DecidableEq

/-- The answers of the collaborators to the calls every endpoint starts with;
`none` is a nil error. -/
structure Access where
  projectGet : Option Err
  clusterGet : Except Err Cluster
  machineClient : Option Err
  kubeClient : Option Err

/-- The endpoint `listNodesForCluster`. `kubernetesErrorToHTTPError` is the
mapping of store errors, a collaborator; the last two store arguments are the
answers to the two list calls. -/
def listNodesForCluster (kubernetesErrorToHTTPError : Err → Err) (conv : MachineConversions)
    (access : Access) (machineList : Except Err (List Machine))
    (nodeList : Except Err (List Node)) (hideInitialConditions : Bool) (now : Int) :
    Res (List NodeV1) :=
  match access.projectGet with
  | some e => Res.err (kubernetesErrorToHTTPError e)
  | none =>
  match access.clusterGet with
  | Except.error e => Res.err (kubernetesErrorToHTTPError e)
  | Except.ok _ =>
  match access.machineClient with
  | some e => Res.err (kubernetesErrorToHTTPError e)
  | none =>
  match access.kubeClient with
  | some e => Res.err (kubernetesErrorToHTTPError e)
  | none =>
  match machineList with
  | Except.error e => Res.err (Err.wrapped "failed to load machines from cluster" e)
  | Except.ok machines =>
  match nodeList with
  | Except.error e => Res.err (kubernetesErrorToHTTPError e)
  | Except.ok nodes =>
  match listMachinesLoop conv nodes hideInitialConditions now machines
      ([], StringSet.NewString) with
  | Res.err e => Res.err e
  | Res.nilDeref => Res.nilDeref
  | Res.ok (nodesV2, matchedMachineNodes) =>
    Res.ok (convertNodesV2ToNodesV1
      (listNodesLoop matchedMachineNodes hideInitialConditions now nodes nodesV2))

/-- The endpoint `getNodeForCluster` for the node id `nodeID`. -/
def getNodeForCluster (kubernetesErrorToHTTPError : Err → Err) (conv : MachineConversions)
    (access : Access) (machineList : Except Err (List Machine))
    (nodeList : Except Err (List Node)) (nodeID : String) (hideInitialConditions : Bool)
    (now : Int) : Res NodeV1 :=
  match access.projectGet with
  | some e => Res.err (kubernetesErrorToHTTPError e)
  | none =>
  match access.clusterGet with
  | Except.error e => Res.err (kubernetesErrorToHTTPError e)
  | Except.ok _ =>
  match access.machineClient with
  | some e => Res.err (kubernetesErrorToHTTPError e)
  | none =>
  match access.kubeClient with
  | some e => Res.err (kubernetesErrorToHTTPError e)
  | none =>
  match findMachineAndNode nodeID machineList nodeList with
  | Res.err e => Res.err e
  | Res.nilDeref => Res.nilDeref
  | Res.ok (none, none) => Res.err (Err.notFound "Node" nodeID)
  | Res.ok (none, some node) =>
    Res.ok (convertNodeV2ToNodeV1 (outputNode node hideInitialConditions now))
  | Res.ok (some machine, node) =>
    match outputMachine conv machine node hideInitialConditions now with
    | Res.err e => Res.err e
    | Res.nilDeref => Res.nilDeref
    | Res.ok nodeV2 => Res.ok (convertNodeV2ToNodeV1 nodeV2)

/-- The endpoint `deleteNodeForCluster` for the node id `nodeID`; the two
delete arguments are the answers of the stores to a delete call (machine
namespace and name, node name), `none` being a nil error, which the error
mapping leaves nil. -/
def deleteNodeForCluster (kubernetesErrorToHTTPError : Err → Err) (access : Access)
    (machineList : Except Err (List Machine)) (nodeList : Except Err (List Node))
    (deleteMachine : String → String → Option Err) (deleteNode : String → Option Err)
    (nodeID : String) : Res Unit :=
  match access.projectGet with
  | some e => Res.err (kubernetesErrorToHTTPError e)
  | none =>
  match access.clusterGet with
  | Except.error e => Res.err (kubernetesErrorToHTTPError e)
  | Except.ok _ =>
  match access.machineClient with
  | some e => Res.err (Err.wrapped "failed to create a machine client" e)
  | none =>
  match access.kubeClient with
  | some e => Res.err (Err.wrapped "failed to create a kubernetes client" e)
  | none =>
  match findMachineAndNode nodeID machineList nodeList with
  | Res.err e => Res.err e
  | Res.nilDeref => Res.nilDeref
  | Res.ok (none, none) => Res.err (Err.notFound "Node" nodeID)
  | Res.ok (some machine, _) =>
    match deleteMachine machine.Namespace machine.Name with
    | some e => Res.err (kubernetesErrorToHTTPError e)
    | none => Res.ok ()
  | Res.ok (none, some node) =>
    match deleteNode node.Name with
    | some e => Res.err (kubernetesErrorToHTTPError e)
    | none => Res.ok ()

/-- Constraint on the kubelet version (`kubeletVersionConstraint`). -/
def kubeletVersionConstraint : String := ">= 1.8"

/-- A parsed version of package `semver`, kept as its rendering. -/
structure SemVersion where
  rendered : String
  deriving DecidableEq

/-- The collaborators of `createNodeForCluster` that are not part of the
handler file: the ssh key store, the datacenters, package `semver`, the random
suffix, the machine template and the machine store. -/
structure CreateCollaborators where
  sshKeyList : Except Err (List String)
  dcs : String → Option String
  NewVersion : String → Except Err SemVersion
  NewConstraint : String → Option Err
  Check : String → SemVersion → Bool
  randString : Nat → String
  machineresourceMachine : Cluster → LegacyNode → String → List String → Except Err Machine
  machineCreate : Machine → Except Err Machine

/-- The cloud-provider check of `createNodeForCluster` (lines 245-252): the
error it answers with, if any. -/
def cloudProviderCheck (node : LegacyNode) : Option Err :=
  if node.Spec.Cloud.Openstack.isNone &&
      node.Spec.Cloud.Digitalocean.isNone &&
      node.Spec.Cloud.AWS.isNone &&
      node.Spec.Cloud.Hetzner.isNone &&
      node.Spec.Cloud.VSphere.isNone &&
      node.Spec.Cloud.Azure.isNone then
    some (Err.badRequest "cannot create node without cloud provider")
  else none

/-- The kubelet version of `createNodeForCluster` (lines 255-272): the node
with its version checked and normalised, or defaulted to the cluster version. -/
def kubeletVersionStep (c : CreateCollaborators) (cluster : Cluster) (node : LegacyNode) :
    Res LegacyNode :=
  if node.Spec.Versions.Kubelet != "" then
    match c.NewVersion node.Spec.Versions.Kubelet with
    | Except.error e => Res.err (Err.wrapped "failed to parse kubelet version" e)
    | Except.ok kversion =>
      match c.NewConstraint kubeletVersionConstraint with
      | some e => Res.err (Err.wrapped "failed to parse kubelet constraint version" e)
      | none =>
        if !c.Check kubeletVersionConstraint kversion then
          Res.err (Err.plain
            ("kubelet version does not fit constraint. Allowed " ++ kubeletVersionConstraint))
        else
          Res.ok { node with Spec := { node.Spec with Versions := { Kubelet := kversion.rendered } } }
  else
    Res.ok { node with Spec := { node.Spec with Versions := { Kubelet := cluster.Version } } }

/-- The endpoint `createNodeForCluster` for the request body `body`. -/
def createNodeForCluster (kubernetesErrorToHTTPError : Err → Err) (conv : MachineConversions)
    (c : CreateCollaborators) (access : Access) (body : NodeV1) (now : Int) : Res NodeV1 :=
  match access.projectGet with
  | some e => Res.err (kubernetesErrorToHTTPError e)
  | none =>
  match access.clusterGet with
  | Except.error e => Res.err (kubernetesErrorToHTTPError e)
  | Except.ok cluster =>
  match c.sshKeyList with
  | Except.error e => Res.err (kubernetesErrorToHTTPError e)
  | Except.ok keys =>
  match access.machineClient with
  | some e => Res.err (kubernetesErrorToHTTPError e)
  | none =>
  match c.dcs cluster.DatacenterName with
  | none => Res.err (Err.plain ("unknown cluster datacenter " ++ cluster.DatacenterName))
  | some dc =>
  let node := convertNodeV1ToNodeV2 body
  match cloudProviderCheck node with
  | some e => Res.err e
  | none =>
  match kubeletVersionStep c cluster node with
  | Res.err e => Res.err e
  | Res.nilDeref => Res.nilDeref
  | Res.ok node =>
  let node :=
    if node.Metadata.Name == "" then
      { node with Metadata := { node.Metadata with
          Name := "kubermatic-" ++ cluster.Name ++ "-" ++ c.randString 5 } }
    else node
  match c.machineresourceMachine cluster node dc keys with
  | Except.error e => Res.err (Err.wrapped "failed to create machine from template" e)
  | Except.ok machine =>
  match c.machineCreate machine with
  | Except.error e => Res.err (Err.wrapped "failed to create machine" e)
  | Except.ok machine =>
  match outputMachine conv machine none false now with
  | Res.err e => Res.err e
  | Res.nilDeref => Res.nilDeref
  | Res.ok nodeV2 => Res.ok (convertNodeV2ToNodeV1 nodeV2)

/-! ## Access-grant templates (`resources/openshift/rbac.go`) -/

/-- API group of the access-control objects (`rbacv1.GroupName`). -/
def GroupName : String := "rbac.authorization.k8s.io"

/-- Subject kind of a user (`rbacv1.UserKind`). -/
def UserKind : String := "User"

/-- The two constants of package `resources` the templates use; they are
declared outside the template file. -/
structure ResourcesConstants where
  MachineControllerRoleBindingName : String
  SchedulerCertUsername : String

/-- A rule of a role (`rbacv1.PolicyRule`); a nil slice is the empty list. -/
structure PolicyRule where
  Verbs : List String
  APIGroups : List String
  Resources : List String
  ResourceNames : List String
  NonResourceURLs : List String
  deriving DecidableEq

/-- A role (`rbacv1.Role`): the metadata fields a stored object carries, and
the rules. -/
structure Role where
  Name : String
  Namespace : String
  Labels : StringMap
  Annotations : StringMap
  ResourceVersion : String
  UID : String
  Rules : List PolicyRule
  deriving DecidableEq

/-- A subject of a role binding (`rbacv1.Subject`). -/
structure Subject where
  Kind : String
  APIGroup : String
  Name : String
  Namespace : String
  deriving DecidableEq

/-- The role a binding refers to (`rbacv1.RoleRef`). -/
structure RoleRef where
  APIGroup : String
  Kind : String
  Name : String
  deriving DecidableEq

/-- A role binding (`rbacv1.RoleBinding`). -/
structure RoleBinding where
  Name : String
  Namespace : String
  Labels : StringMap
  Annotations : StringMap
  ResourceVersion : String
  UID : String
  Subjects : List Subject
  RoleRef : RoleRef
  deriving DecidableEq

/-- A creator of roles (`reconciling.RoleCreator`): it gets a pointer to the
existing object and returns the desired one, or an error. -/
abbrev RoleCreator := Option Role → Res Role

/-- A creator of role bindings (`reconciling.RoleBindingCreator`). -/
abbrev RoleBindingCreator := Option RoleBinding → Res RoleBinding

/-- The name and the creator of the leader-election role of the scheduler
(`KubeSchedulerRoleCreatorGetter`). -/
def KubeSchedulerRoleCreatorGetter : String × RoleCreator :=
  ("system:openshift:sa-leader-election-configmaps", fun r =>
    match r with
    | none => Res.nilDeref
    | some r =>
      let r := { r with Name := "system:openshift:sa-leader-election-configmaps" }
      let r := { r with Namespace := "openshift-kube-scheduler" }
      let r := { r with
        Rules :=
          [({ APIGroups := [""],
              Resources := ["configmaps"],
              Verbs := ["get", "create", "update"],
              ResourceNames := [],
              NonResourceURLs := [] } : PolicyRule)] }
      Res.ok r)

/-- The name and the creator of the leader-election role binding of the
scheduler (`KubeSchedulerRoleBindingCreatorGetter`). -/
def KubeSchedulerRoleBindingCreatorGetter (resources : ResourcesConstants) :
    String × RoleBindingCreator :=
  (resources.MachineControllerRoleBindingName, fun rb =>
    match rb with
    | none => Res.nilDeref
    | some rb =>
      let rb := { rb with Name := "system:openshift:sa-leader-election-configmaps" }
      let rb := { rb with Namespace := "openshift-kube-scheduler" }
      let rb := { rb with
        RoleRef :=
          { Name := "system:openshift:sa-leader-election-configmaps",
            Kind := "Role",
            APIGroup := GroupName } }
      let rb := { rb with
        Subjects :=
          [({ Kind := UserKind,
              Name := resources.SchedulerCertUsername,
              APIGroup := GroupName,
              Namespace := "" } : Subject)] }
      Res.ok rb)

/-! ## Properties named by the specification -/

/-- A condition type is positive when it is the overall-ready or the config-ok
type. -/
def positiveConditionType (t : String) : Bool :=
  t == NodeReady || t == NodeKubeletConfigOk

/-- A condition contributes to the error texts when it is of a positive type
with a status that is not true, or of any other type with a status that is
true. -/
def contributes (c : NodeCondition) : Bool :=
  (positiveConditionType c.Type_ && c.Status != ConditionTrue) ||
  (!positiveConditionType c.Type_ && c.Status == ConditionTrue)

/-- The contributing conditions of a node, in the order of its condition list. -/
def contributingConditions (node : Node) : List NodeCondition :=
  node.Status.Conditions.filter contributes

/-- The node is past the grace period, or suppression is off: the condition
texts are derived. -/
def conditionsShown (node : Node) (hideInitialNodeConditions : Bool) (now : Int) : Bool :=
  !hideInitialNodeConditions || decide (timeSince now node.CreationTimestamp > 5 * Minute)

/-- The reasons the node of an entity adds to the error reason: those of its
contributing conditions when the conditions are shown, none otherwise and none
without a node. -/
def nodeReasons (node : Option Node) (hideInitialNodeConditions : Bool) (now : Int) :
    List String :=
  match node with
  | none => []
  | some n =>
    if conditionsShown n hideInitialNodeConditions now then
      (contributingConditions n).map (fun c => c.Reason)
    else []

/-- The messages the node of an entity adds to the error message, as for
`nodeReasons`. -/
def nodeMessages (node : Option Node) (hideInitialNodeConditions : Bool) (now : Int) :
    List String :=
  match node with
  | none => []
  | some n =>
    if conditionsShown n hideInitialNodeConditions now then
      (contributingConditions n).map (fun c => c.Message)
    else []

/-- Number of populated provider sections of a cloud spec. -/
def populatedSections (c : NodeCloudSpec) : Nat :=
  [c.Openstack, c.Digitalocean, c.AWS, c.Hetzner, c.VSphere, c.Azure].countP Option.isSome

/-- Every machine and every node is in exactly one entity: the machines of the
entities are the machines, each once and in order; the nodes of the entities
are the nodes, each once; and every entity is a pair, a node alone or a machine
alone. -/
def ExactlyOnce (machines : List Machine) (nodes : List Node)
    (entities : List CorrelatedEntity) : Prop :=
  entities.filterMap (fun e => e.machine) = machines ∧
  (entities.filterMap (fun e => e.node)).Perm nodes ∧
  entities.length =
    entities.countP (fun e => e.machine.isSome && e.node.isSome) +
    entities.countP (fun e => e.machine.isNone && e.node.isSome) +
    entities.countP (fun e => e.machine.isSome && e.node.isNone)

/-- Read model of an entity, as the loops of `listNodesForCluster` build it. -/
def outputEntity (conv : MachineConversions) (hideInitialConditions : Bool) (now : Int) :
    CorrelatedEntity → Res LegacyNode
  | CorrelatedEntity.ofMachine machine node =>
    match outputMachine conv machine node hideInitialConditions now with
    | Res.err err => Res.err (Err.wrapped ("failed to output machine " ++ machine.Name) err)
    | Res.nilDeref => Res.nilDeref
    | Res.ok outNode => Res.ok outNode
  | CorrelatedEntity.ofNode node => Res.ok (outputNode node hideInitialConditions now)

/-- Read models of a list of entities, in order, up to the first failure. -/
def outputEntities (conv : MachineConversions) (hideInitialConditions : Bool) (now : Int) :
    List CorrelatedEntity → Res (List LegacyNode)
  | [] => Res.ok []
  | e :: rest =>
    match outputEntity conv hideInitialConditions now e with
    | Res.err err => Res.err err
    | Res.nilDeref => Res.nilDeref
    | Res.ok outNode =>
      match outputEntities conv hideInitialConditions now rest with
      | Res.err err => Res.err err
      | Res.nilDeref => Res.nilDeref
      | Res.ok outNodes => Res.ok (outNode :: outNodes)

/-- The error texts outputMachine starts from (lines 396-399): empty without a
terminal error reason, else the reason and the message of the machine, each
followed by the separator; nothing when the reason is set and the message is
nil, which the code dereferences. -/
def machineErrorTexts (machine : Machine) : Option (String × String) :=
  match machine.Status.ErrorReason with
  | none => some ("", "")
  | some r =>
    match machine.Status.ErrorMessage with
    | none => none
    | some m => some ("" ++ (r ++ errGlue), "" ++ (m ++ errGlue))

/-- A machine with a terminal error: name "machine-1", declared name
"worker-1". -/
def failedMachine : Machine :=
  { Name := "machine-1", Namespace := "kube-system", UID := "machine-uid-1",
    CreationTimestamp := 0, DeletionTimestamp := none,
    Spec := { Name := "worker-1", Versions := ⟨"1.12.1"⟩, ProviderConfig := "" },
    Status :=
      { NodeRef := none, ErrorReason := some "InvalidConfiguration",
        ErrorMessage := some "no such flavor" } }

/-! ## Sample objects -/

/-- A node with the given name, UID, conditions and creation instant. -/
def sampleNode (name uid : String) (conditions : List NodeCondition) (created : Int) : Node :=
  { Name := name, UID := uid, Labels := none, Annotations := none, OwnerReferences := [],
    CreationTimestamp := created, DeletionTimestamp := none,
    Status :=
      { Addresses := [], Conditions := conditions, Allocatable := ⟨none, none⟩,
        Capacity := ⟨none, none⟩, NodeInfo := ⟨"linux", "v1.12.1", "amd64"⟩ } }

/-- A machine with the given name, declared name, node reference and terminal
error. -/
def sampleMachine (name declared : String) (nodeRef : Option String)
    (errorReason errorMessage : Option String) : Machine :=
  { Name := name, Namespace := "kube-system", UID := "machine-" ++ name,
    CreationTimestamp := 0, DeletionTimestamp := none,
    Spec := { Name := declared, Versions := ⟨"1.12.1"⟩, ProviderConfig := "" },
    Status :=
      { NodeRef := nodeRef.map ObjectReference.mk, ErrorReason := errorReason,
        ErrorMessage := errorMessage } }

/-- Machine conversions that succeed with one fixed answer. -/
def sampleConversions : MachineConversions :=
  { GetAPIV2OperatingSystemSpec := fun _ => Except.ok ⟨[("ubuntu", "")]⟩,
    GetAPIV2NodeCloudSpec := fun _ =>
      Except.ok { NodeCloudSpec.zero with AWS := some ⟨"t2.small"⟩ } }

/-- The condition of the scenario: ready is false. -/
def kubeletNotReady : NodeCondition :=
  { Type_ := "Ready", Status := "False", Reason := "KubeletNotReady",
    Message := "kubelet stopped posting node status" }

/-- A second contributing condition: disk pressure is true. -/
def diskPressure : NodeCondition :=
  { Type_ := "DiskPressure", Status := "True", Reason := "KubeletHasDiskPressure",
    Message := "kubelet has disk pressure" }

/-- A condition that does not contribute: ready is true. -/
def kubeletReady : NodeCondition :=
  { Type_ := "Ready", Status := "True", Reason := "KubeletReady",
    Message := "kubelet is posting ready status" }

/-- The node of the scenario: "node-5", ready false, no owning machine. -/
def node5 : Node := sampleNode "node-5" "uid-5" [kubeletNotReady] 0

/-- A machine named "worker-1" whose node reference points at UID "uid-a". -/
def linkedMachine : Machine := sampleMachine "worker-1" "worker-1" (some "uid-a") none none

/-- The node the linked machine references by UID. -/
def nodeA : Node := sampleNode "node-a" "uid-a" [] 0

/-- A different node that carries the name of the linked machine. -/
def nodeB : Node := sampleNode "worker-1" "uid-b" [] 0

/-- A cluster for the samples. -/
def sampleCluster : Cluster := { Name := "c1", Version := "1.12.1", DatacenterName := "dc-1" }

/-- Access answers with no error. -/
def grantedAccess (cluster : Cluster) : Access :=
  { projectGet := none, clusterGet := Except.ok cluster, machineClient := none,
    kubeClient := none }

/-- Collaborators of the create endpoint that all succeed. -/
def sampleCreateCollaborators : CreateCollaborators :=
  { sshKeyList := Except.ok [],
    dcs := fun _ => some "datacenter",
    NewVersion := fun v => Except.ok ⟨v⟩,
    NewConstraint := fun _ => none,
    Check := fun _ _ => true,
    randString := fun _ => "x7k2p",
    machineresourceMachine := fun _ node _ _ =>
      Except.ok (sampleMachine node.Metadata.Name node.Metadata.DisplayName none none none),
    machineCreate := fun machine => Except.ok machine }

/-- A create request with two populated provider sections. -/
def twoProviderBody : NodeV1 :=
  { ObjectMeta := { ID := "", Name := "worker", DeletionTimestamp := none, CreationTimestamp := 0 },
    Spec :=
      { Cloud := { NodeCloudSpec.zero with
          Openstack := some ⟨"m1.small"⟩, AWS := some ⟨"t2.small"⟩ },
        OperatingSystem := ⟨[("ubuntu", "")]⟩,
        Versions := ⟨""⟩ },
    Status := NodeStatus.zero }

/-- A create request with no provider section. -/
def noProviderBody : NodeV1 :=
  { ObjectMeta := { ID := "", Name := "worker", DeletionTimestamp := none, CreationTimestamp := 0 },
    Spec := { Cloud := NodeCloudSpec.zero, OperatingSystem := ⟨[("ubuntu", "")]⟩, Versions := ⟨""⟩ },
    Status := NodeStatus.zero }

/-- A node named "a" with UID "u1". -/
def sharedNode : Node := sampleNode "a" "u1" [] 0

/-- A machine named "a" with no node reference: it finds its node by name. -/
def machineByName : Machine := sampleMachine "a" "a" none none none

/-- A machine named "b" whose node reference points at UID "u1". -/
def machineByRef : Machine := sampleMachine "b" "b" (some "u1") none none

/-- A node named "c" that carries the UID "u1" of the shared node. -/
def sharedUidNode : Node := sampleNode "c" "u1" [] 0

/-- The nodes the machines of a list are matched with, in the order of the
machines. -/
def matchedNodes (machines : List Machine) (nodes : List Node) : List Node :=
  machines.filterMap (fun m => getNodeForMachine m nodes)

/-- A machine whose terminal error reason is set and whose error message is
nil. -/
def reasonOnlyMachine : Machine :=
  sampleMachine "machine-2" "worker-2" none (some "InvalidConfiguration") none

/-- A machine whose error message is set and whose terminal error reason is
nil. -/
def messageOnlyMachine : Machine :=
  sampleMachine "machine-3" "worker-3" none none (some "no such flavor")

/-- A machine with no terminal error. -/
def healthyMachine : Machine := sampleMachine "machine-4" "worker-4" none none none

/-! ## Theorems: strings -/

theorem join_cons (x : String) (xs : List String) :
    String.join (x :: xs) = x ++ String.join xs := by
  apply String.ext
  simp [String.data_join]

theorem join_nil : String.join [] = "" := rfl

theorem intercalate_go_eq (acc g : String) (xs : List String) :
    String.intercalate.go acc g xs = acc ++ String.join (xs.map (fun x => g ++ x)) := by
  induction xs generalizing acc with
  | nil => simp [String.intercalate.go, join_nil]
  | cons x rest ih =>
    simp only [String.intercalate.go, List.map_cons, join_cons, ih]
    simp [String.append_assoc]

theorem intercalate_cons (g a : String) (xs : List String) :
    String.intercalate g (a :: xs) = a ++ String.join (xs.map (fun x => g ++ x)) := by
  simp [String.intercalate, intercalate_go_eq]

/-- Gluing a separator after every text is the texts joined by the separator,
then one separator. -/
theorem glued_eq_intercalate (g a : String) (xs : List String) :
    a ++ g ++ String.join (xs.map (fun x => x ++ g)) = String.intercalate g (a :: xs) ++ g := by
  induction xs generalizing a with
  | nil => simp [String.intercalate, String.intercalate.go, join_nil]
  | cons x rest ih =>
    have h := ih (a ++ g ++ x)
    simp only [List.map_cons, join_cons]
    have e : String.intercalate g (a :: x :: rest) = String.intercalate g ((a ++ g ++ x) :: rest) := by
      simp [String.intercalate, String.intercalate.go]
    rw [e, ← h]
    simp [String.append_assoc]

theorem TrimSuffix_append (t g : String) : TrimSuffix (t ++ g) g = t := by
  have h : HasSuffix (t ++ g) g = true := by
    simp [HasSuffix, String.data_append]
  simp [TrimSuffix, h, String.data_append]

theorem TrimSuffix_glued (g a : String) (xs : List String) :
    TrimSuffix (a ++ g ++ String.join (xs.map (fun x => x ++ g))) g =
      String.intercalate g (a :: xs) := by
  rw [glued_eq_intercalate, TrimSuffix_append]

/-! ## Theorems: condition texts -/

theorem parseNodeConditionsStep_eq (acc : String × String) (c : NodeCondition) :
    parseNodeConditionsStep acc c =
      if contributes c then (acc.1 ++ (c.Reason ++ errGlue), acc.2 ++ (c.Message ++ errGlue))
      else acc := by
  unfold parseNodeConditionsStep contributes positiveConditionType
  by_cases hg : (c.Type_ == NodeReady || c.Type_ == NodeKubeletConfigOk) = true <;>
    by_cases hs : (c.Status == ConditionTrue) = true <;>
    simp_all

theorem parse_foldl_eq (conds : List NodeCondition) (r m : String) :
    conds.foldl parseNodeConditionsStep (r, m) =
      (r ++ String.join ((conds.filter contributes).map (fun c => c.Reason ++ errGlue)),
       m ++ String.join ((conds.filter contributes).map (fun c => c.Message ++ errGlue))) := by
  induction conds generalizing r m with
  | nil => simp [join_nil]
  | cons c rest ih =>
    rw [List.foldl_cons, parseNodeConditionsStep_eq]
    by_cases hc : contributes c = true
    · simp only [hc, if_true, ih, List.filter_cons_of_pos, List.map_cons, join_cons]
      simp [String.append_assoc]
    · have hc' : contributes c = false := by simpa using hc
      simp [hc', ih, List.filter_cons]

theorem parseNodeConditions_eq (node : Node) :
    parseNodeConditions node =
      (String.join ((contributingConditions node).map (fun c => c.Reason ++ errGlue)),
       String.join ((contributingConditions node).map (fun c => c.Message ++ errGlue))) := by
  unfold parseNodeConditions contributingConditions
  rw [parse_foldl_eq]
  simp

theorem minutesExceed_delay (d : Int) :
    minutesExceed d initialConditionParsingDelay = decide (d > 5 * Minute) := by
  simp [minutesExceed, initialConditionParsingDelay]

theorem apiNodeStatus_ErrorReason (status : NodeStatus) (node : Node) (hide : Bool) (now : Int) :
    (apiNodeStatus status node hide now).ErrorReason =
      if conditionsShown node hide now then status.ErrorReason ++ (parseNodeConditions node).1
      else status.ErrorReason := by
  unfold apiNodeStatus conditionsShown
  rw [minutesExceed_delay]
  split <;> simp_all

theorem apiNodeStatus_ErrorMessage (status : NodeStatus) (node : Node) (hide : Bool) (now : Int) :
    (apiNodeStatus status node hide now).ErrorMessage =
      if conditionsShown node hide now then status.ErrorMessage ++ (parseNodeConditions node).2
      else status.ErrorMessage := by
  unfold apiNodeStatus conditionsShown
  rw [minutesExceed_delay]
  split <;> simp_all

/-- C4: the reason, and likewise the message, that parseNodeConditions returns
is the concatenation, in the order of the condition list, of the reason
(message) followed by the separator over exactly the contributing conditions;
a node with no contributing condition yields two empty strings. -/
theorem C4_parseNodeConditions_contributing (node : Node) :
    parseNodeConditions node =
      (String.join ((node.Status.Conditions.filter contributes).map
          (fun c => c.Reason ++ " & ")),
       String.join ((node.Status.Conditions.filter contributes).map
          (fun c => c.Message ++ " & "))) ∧
    ((∀ c ∈ node.Status.Conditions, contributes c = false) →
      parseNodeConditions node = ("", "")) := by
  refine ⟨parseNodeConditions_eq node, ?_⟩
  intro h
  have hf : node.Status.Conditions.filter contributes = [] := by
    rw [List.filter_eq_nil_iff]
    intro c hc
    simp [h c hc]
  rw [parseNodeConditions_eq]
  simp [contributingConditions, hf, join_nil]

/-- C4, at a node whose only condition is ready and true. -/
theorem C4_parseNodeConditions_contributing_witness :
    (∀ c ∈ (sampleNode "node-1" "uid-1" [kubeletReady] 0).Status.Conditions,
        contributes c = false) ∧
    parseNodeConditions (sampleNode "node-1" "uid-1" [kubeletReady] 0) = ("", "") :=
  ⟨by decide,
   (C4_parseNodeConditions_contributing (sampleNode "node-1" "uid-1" [kubeletReady] 0)).2
     (by decide)⟩

/-- C3: for the node "node-5" of the scenario, whose only condition is ready
false with reason KubeletNotReady, outputNode without suppression returns the
reason followed by the separator, which is not the reason alone; the message
keeps its trailing separator too. -/
theorem C3_outputNode_keeps_separator (now : Int) :
    (outputNode node5 false now).Status.ErrorReason = "KubeletNotReady & " ∧
    (outputNode node5 false now).Status.ErrorReason ≠ "KubeletNotReady" ∧
    (outputNode node5 false now).Status.ErrorReason ≠
      String.intercalate " & " ((contributingConditions node5).map (fun c => c.Reason)) ∧
    (outputNode node5 false now).Status.ErrorMessage =
      "kubelet stopped posting node status & " := by
  have hr : (outputNode node5 false now).Status.ErrorReason = "KubeletNotReady & " := by
    show (apiNodeStatus NodeStatus.zero node5 false now).ErrorReason = _
    rw [apiNodeStatus_ErrorReason]
    simp [conditionsShown]
    decide
  have hm : (outputNode node5 false now).Status.ErrorMessage =
      "kubelet stopped posting node status & " := by
    show (apiNodeStatus NodeStatus.zero node5 false now).ErrorMessage = _
    rw [apiNodeStatus_ErrorMessage]
    simp [conditionsShown]
    decide
  refine ⟨hr, ?_, ?_, hm⟩
  · rw [hr]; decide
  · rw [hr]; decide

/-- C5: with the age of the node (the clock reading minus its creation
instant) as an input: when suppression is set and the age is below five
minutes, apiNodeStatus leaves the error reason and message as passed in, and
outputNode returns them empty; when the age is above five minutes (six
minutes, say) or suppression is not set, the reason and message of
parseNodeConditions are appended. -/
theorem C5_apiNodeStatus_grace_period (status : NodeStatus) (node : Node) (hide : Bool)
    (now : Int) :
    (hide = true → timeSince now node.CreationTimestamp < 5 * Minute →
      (apiNodeStatus status node hide now).ErrorReason = status.ErrorReason ∧
      (apiNodeStatus status node hide now).ErrorMessage = status.ErrorMessage ∧
      (outputNode node hide now).Status.ErrorReason = "" ∧
      (outputNode node hide now).Status.ErrorMessage = "") ∧
    (hide = false ∨ timeSince now node.CreationTimestamp = 6 * Minute ∨
        timeSince now node.CreationTimestamp > 5 * Minute →
      (apiNodeStatus status node hide now).ErrorReason =
        status.ErrorReason ++ (parseNodeConditions node).1 ∧
      (apiNodeStatus status node hide now).ErrorMessage =
        status.ErrorMessage ++ (parseNodeConditions node).2) := by
  constructor
  · intro hh hage
    have hs : conditionsShown node hide now = false := by
      simp only [conditionsShown, hh]
      simp
      omega
    refine ⟨?_, ?_, ?_, ?_⟩
    · rw [apiNodeStatus_ErrorReason, hs]; simp
    · rw [apiNodeStatus_ErrorMessage, hs]; simp
    · show (apiNodeStatus NodeStatus.zero node hide now).ErrorReason = _
      rw [apiNodeStatus_ErrorReason, hs]; rfl
    · show (apiNodeStatus NodeStatus.zero node hide now).ErrorMessage = _
      rw [apiNodeStatus_ErrorMessage, hs]; rfl
  · intro h
    have hs : conditionsShown node hide now = true := by
      simp only [conditionsShown]
      rcases h with h | h | h
      · simp [h]
      · simp [h, Minute]
      · simp [h]
    constructor
    · rw [apiNodeStatus_ErrorReason, hs]; simp
    · rw [apiNodeStatus_ErrorMessage, hs]; simp

/-- C5, at the node of the scenario: one minute old with suppression set, the
reason stays empty; six minutes old, it is populated. -/
theorem C5_apiNodeStatus_grace_period_witness :
    (timeSince (1 * Minute) node5.CreationTimestamp < 5 * Minute ∧
      (outputNode node5 true (1 * Minute)).Status.ErrorReason = "") ∧
    (timeSince (6 * Minute) node5.CreationTimestamp = 6 * Minute ∧
      (apiNodeStatus NodeStatus.zero node5 true (6 * Minute)).ErrorReason =
        "" ++ (parseNodeConditions node5).1 ∧
      (parseNodeConditions node5).1 = "KubeletNotReady & ") :=
  ⟨⟨by decide,
    ((C5_apiNodeStatus_grace_period NodeStatus.zero node5 true (1 * Minute)).1 rfl
      (by decide)).2.2.1⟩,
   ⟨by decide,
    ((C5_apiNodeStatus_grace_period NodeStatus.zero node5 true (6 * Minute)).2
      (Or.inr (Or.inl (by decide)))).1,
    by decide⟩⟩

/-! ## Theorems: the read model of a machine -/

theorem outputMachine_eq (conv : MachineConversions) (machine : Machine) (node : Option Node)
    (hide : Bool) (now : Int) (os : OperatingSystemSpec) (cloud : NodeCloudSpec)
    (texts : String × String)
    (ht : machineErrorTexts machine = some texts)
    (hos : conv.GetAPIV2OperatingSystemSpec machine = Except.ok os)
    (hcloud : conv.GetAPIV2NodeCloudSpec machine = Except.ok cloud) :
    ∃ out, outputMachine conv machine node hide now = Res.ok out ∧
      out.Metadata.Name = machine.Name ∧
      out.Metadata.DisplayName =
        (match node with
         | some n => if n.Name != machine.Spec.Name then n.Name else machine.Spec.Name
         | none => machine.Spec.Name) ∧
      out.Status.ErrorReason =
        TrimSuffix (match node with
          | some n =>
            (apiNodeStatus { NodeStatus.zero with
                MachineName := machine.Name, ErrorReason := texts.1, ErrorMessage := texts.2 }
              n hide now).ErrorReason
          | none => texts.1) errGlue ∧
      out.Status.ErrorMessage =
        TrimSuffix (match node with
          | some n =>
            (apiNodeStatus { NodeStatus.zero with
                MachineName := machine.Name, ErrorReason := texts.1, ErrorMessage := texts.2 }
              n hide now).ErrorMessage
          | none => texts.2) errGlue := by
  unfold machineErrorTexts at ht
  unfold outputMachine
  cases hr : machine.Status.ErrorReason with
  | none =>
    rw [hr] at ht
    simp at ht
    subst ht
    cases node <;> simp [hos, hcloud, NodeStatus.zero]
  | some r =>
    rw [hr] at ht
    cases hm : machine.Status.ErrorMessage with
    | none => rw [hm] at ht; simp at ht
    | some m =>
      rw [hm] at ht
      simp at ht
      subst ht
      cases node <;> simp [hos, hcloud, NodeStatus.zero]

theorem outputMachine_ok_inv (conv : MachineConversions) (machine : Machine)
    (node : Option Node) (hide : Bool) (now : Int) (out : LegacyNode)
    (h : outputMachine conv machine node hide now = Res.ok out) :
    ∃ texts os cloud, machineErrorTexts machine = some texts ∧
      conv.GetAPIV2OperatingSystemSpec machine = Except.ok os ∧
      conv.GetAPIV2NodeCloudSpec machine = Except.ok cloud := by
  cases hos : conv.GetAPIV2OperatingSystemSpec machine with
  | error e =>
    exfalso
    unfold outputMachine at h
    cases hr : machine.Status.ErrorReason <;> cases hm : machine.Status.ErrorMessage <;>
      simp [hr, hm, hos] at h
  | ok os =>
    cases hcloud : conv.GetAPIV2NodeCloudSpec machine with
    | error e =>
      exfalso
      unfold outputMachine at h
      cases hr : machine.Status.ErrorReason <;> cases hm : machine.Status.ErrorMessage <;>
        simp [hr, hm, hos, hcloud] at h
    | ok cloud =>
      cases ht : machineErrorTexts machine with
      | some texts => exact ⟨texts, os, cloud, rfl, rfl, rfl⟩
      | none =>
        exfalso
        unfold machineErrorTexts at ht
        unfold outputMachine at h
        cases hr : machine.Status.ErrorReason <;> cases hm : machine.Status.ErrorMessage <;>
          simp [hr, hm] at h ht

theorem machineErrorTexts_isSome (machine : Machine)
    (h : machine.Status.ErrorReason.isSome → machine.Status.ErrorMessage.isSome) :
    ∃ texts, machineErrorTexts machine = some texts := by
  unfold machineErrorTexts
  cases hr : machine.Status.ErrorReason <;> cases hm : machine.Status.ErrorMessage <;>
    simp_all

theorem trimmed_reason (a : String) (node : Option Node) (hide : Bool) (now : Int)
    (status : NodeStatus) (hst : status.ErrorReason = "" ++ (a ++ errGlue)) :
    TrimSuffix (match node with
      | some n => (apiNodeStatus status n hide now).ErrorReason
      | none => "" ++ (a ++ errGlue)) errGlue =
      String.intercalate errGlue (a :: nodeReasons node hide now) := by
  cases node with
  | none =>
    simp only [nodeReasons]
    rw [← TrimSuffix_glued]
    simp [join_nil]
  | some n =>
    simp only [nodeReasons, apiNodeStatus_ErrorReason, hst]
    by_cases hs : conditionsShown n hide now = true
    · simp only [hs, if_true, parseNodeConditions_eq]
      rw [← TrimSuffix_glued, List.map_map]
      simp [Function.comp_def, String.append_assoc]
    · simp only [hs]
      rw [← TrimSuffix_glued]
      simp [join_nil]

theorem trimmed_message (a : String) (node : Option Node) (hide : Bool) (now : Int)
    (status : NodeStatus) (hst : status.ErrorMessage = "" ++ (a ++ errGlue)) :
    TrimSuffix (match node with
      | some n => (apiNodeStatus status n hide now).ErrorMessage
      | none => "" ++ (a ++ errGlue)) errGlue =
      String.intercalate errGlue (a :: nodeMessages node hide now) := by
  cases node with
  | none =>
    simp only [nodeMessages]
    rw [← TrimSuffix_glued]
    simp [join_nil]
  | some n =>
    simp only [nodeMessages, apiNodeStatus_ErrorMessage, hst]
    by_cases hs : conditionsShown n hide now = true
    · simp only [hs, if_true, parseNodeConditions_eq]
      rw [← TrimSuffix_glued, List.map_map]
      simp [Function.comp_def, String.append_assoc]
    · simp only [hs]
      rw [← TrimSuffix_glued]
      simp [join_nil]

theorem intercalate_starts_with (g a : String) (xs : List String) :
    a.data <+: (String.intercalate g (a :: xs)).data := by
  rw [intercalate_cons, String.data_append]
  exact List.prefix_append _ _

/-- C6: for a machine whose terminal error reason r and message m are set and
whose OS and cloud spec extraction succeeds, and for every optional node,
outputMachine returns an error reason that is r and the reasons the node adds,
joined by the separator " & " with no trailing separator (so it begins with
r), and likewise for the message and m; with no node, or a node with no
contributing condition, the result is exactly r and m. -/
theorem C6_outputMachine_prepends_machine_error (conv : MachineConversions)
    (machine : Machine) (node : Option Node) (hide : Bool) (now : Int) (r m : String)
    (os : OperatingSystemSpec) (cloud : NodeCloudSpec)
    (hr : machine.Status.ErrorReason = some r)
    (hm : machine.Status.ErrorMessage = some m)
    (hos : conv.GetAPIV2OperatingSystemSpec machine = Except.ok os)
    (hcloud : conv.GetAPIV2NodeCloudSpec machine = Except.ok cloud) :
    ∃ out, outputMachine conv machine node hide now = Res.ok out ∧
      out.Status.ErrorReason = String.intercalate " & " (r :: nodeReasons node hide now) ∧
      out.Status.ErrorMessage = String.intercalate " & " (m :: nodeMessages node hide now) ∧
      r.data <+: out.Status.ErrorReason.data ∧
      m.data <+: out.Status.ErrorMessage.data ∧
      ((node = none ∨ ∃ n, node = some n ∧ contributingConditions n = []) →
        out.Status.ErrorReason = r ∧ out.Status.ErrorMessage = m) := by
  have ht : machineErrorTexts machine = some ("" ++ (r ++ errGlue), "" ++ (m ++ errGlue)) := by
    simp [machineErrorTexts, hr, hm]
  obtain ⟨out, hout, -, -, hreason, hmessage⟩ :=
    outputMachine_eq conv machine node hide now os cloud _ ht hos hcloud
  have hR : out.Status.ErrorReason =
      String.intercalate errGlue (r :: nodeReasons node hide now) := by
    rw [hreason]
    exact trimmed_reason r node hide now _ rfl
  have hM : out.Status.ErrorMessage =
      String.intercalate errGlue (m :: nodeMessages node hide now) := by
    rw [hmessage]
    exact trimmed_message m node hide now _ rfl
  refine ⟨out, hout, hR, hM, ?_, ?_, ?_⟩
  · rw [hR]; exact intercalate_starts_with _ _ _
  · rw [hM]; exact intercalate_starts_with _ _ _
  · intro h
    have hnil : nodeReasons node hide now = [] ∧ nodeMessages node hide now = [] := by
      rcases h with h | ⟨n, hn, hc⟩
      · subst h; exact ⟨rfl, rfl⟩
      · subst hn
        simp only [nodeReasons, nodeMessages, hc]
        constructor <;> split <;> rfl
    rw [hR, hM, hnil.1, hnil.2]
    exact ⟨rfl, rfl⟩

/-- C6, at a failed machine and a node with two contributing conditions. -/
theorem C6_outputMachine_prepends_machine_error_witness :
    ∃ out, outputMachine sampleConversions failedMachine
        (some (sampleNode "worker-1" "uid-1" [kubeletNotReady, kubeletReady, diskPressure] 0))
        false 0 = Res.ok out ∧
      out.Status.ErrorReason =
        "InvalidConfiguration & KubeletNotReady & KubeletHasDiskPressure" := by
  obtain ⟨out, hout, hreason, -⟩ :=
    C6_outputMachine_prepends_machine_error sampleConversions failedMachine
      (some (sampleNode "worker-1" "uid-1" [kubeletNotReady, kubeletReady, diskPressure] 0))
      false 0 "InvalidConfiguration" "no such flavor" ⟨[("ubuntu", "")]⟩
      { NodeCloudSpec.zero with AWS := some ⟨"t2.small"⟩ } rfl rfl rfl rfl
  refine ⟨out, hout, ?_⟩
  rw [hreason]
  decide

/-- C10: the identity of the read model outputMachine returns is the name of
the machine; its display name is the name of the node whenever a node is
present and its name differs from the declared name of the machine, and the
declared name of the machine when no node is present (or the names agree).
outputMachine returns a read model whenever the OS and cloud spec extraction
succeeds and the message is set along with the reason. -/
theorem C10_outputMachine_display_name (conv : MachineConversions) (machine : Machine)
    (node : Option Node) (hide : Bool) (now : Int) :
    (∀ out, outputMachine conv machine node hide now = Res.ok out →
      out.Metadata.Name = machine.Name ∧
      (∀ n, node = some n → n.Name ≠ machine.Spec.Name → out.Metadata.DisplayName = n.Name) ∧
      (∀ n, node = some n → n.Name = machine.Spec.Name →
        out.Metadata.DisplayName = machine.Spec.Name) ∧
      (node = none → out.Metadata.DisplayName = machine.Spec.Name)) ∧
    (∀ os cloud, conv.GetAPIV2OperatingSystemSpec machine = Except.ok os →
      conv.GetAPIV2NodeCloudSpec machine = Except.ok cloud →
      (machine.Status.ErrorReason.isSome → machine.Status.ErrorMessage.isSome) →
      ∃ out, outputMachine conv machine node hide now = Res.ok out) := by
  constructor
  · intro out h
    obtain ⟨texts, os, cloud, ht, hos, hcloud⟩ := outputMachine_ok_inv conv machine node hide now out h
    obtain ⟨out', hout', hname, hdisplay, -⟩ :=
      outputMachine_eq conv machine node hide now os cloud texts ht hos hcloud
    have e : out = out' := by
      rw [h] at hout'
      exact Res.ok.inj hout'
    subst e
    refine ⟨hname, ?_, ?_, ?_⟩
    · intro n hn hne
      subst hn
      simpa [hne] using hdisplay
    · intro n hn heq
      subst hn
      simpa [heq] using hdisplay
    · intro hn
      subst hn
      simpa using hdisplay
  · intro os cloud hos hcloud hmsg
    obtain ⟨texts, ht⟩ := machineErrorTexts_isSome machine hmsg
    obtain ⟨out, hout, -⟩ := outputMachine_eq conv machine node hide now os cloud texts ht hos hcloud
    exact ⟨out, hout⟩

/-- C10, at the failed machine (declared name "worker-1") and a node "node-x". -/
theorem C10_outputMachine_display_name_witness :
    ∃ out, outputMachine sampleConversions failedMachine
        (some (sampleNode "node-x" "uid-x" [] 0)) false 0 = Res.ok out ∧
      out.Metadata.Name = "machine-1" ∧ out.Metadata.DisplayName = "node-x" := by
  obtain ⟨out, hout⟩ :=
    (C10_outputMachine_display_name sampleConversions failedMachine
      (some (sampleNode "node-x" "uid-x" [] 0)) false 0).2 _ _ rfl rfl (by decide)
  have h := (C10_outputMachine_display_name sampleConversions failedMachine
      (some (sampleNode "node-x" "uid-x" [] 0)) false 0).1 out hout
  exact ⟨out, hout, h.1, h.2.1 _ rfl (by decide)⟩

/-! ## Theorems: the version adapter -/

/-- C7: adapting a structured node to the flat shape and back reproduces its
identity, display name, creation and deletion timestamps, spec and status, and
loses exactly the labels and annotations; adapting a flat node to the
structured shape and back reproduces it, in id, name, both timestamps, spec and
status. -/
theorem C7_adapter_round_trip (x : LegacyNode) (y : NodeV1) :
    (convertNodeV1ToNodeV2 (convertNodeV2ToNodeV1 x)).Metadata.Name = x.Metadata.Name ∧
    (convertNodeV1ToNodeV2 (convertNodeV2ToNodeV1 x)).Metadata.DisplayName =
      x.Metadata.DisplayName ∧
    (convertNodeV1ToNodeV2 (convertNodeV2ToNodeV1 x)).Metadata.CreationTimestamp =
      x.Metadata.CreationTimestamp ∧
    (convertNodeV1ToNodeV2 (convertNodeV2ToNodeV1 x)).Metadata.DeletionTimestamp =
      x.Metadata.DeletionTimestamp ∧
    (convertNodeV1ToNodeV2 (convertNodeV2ToNodeV1 x)).Spec = x.Spec ∧
    (convertNodeV1ToNodeV2 (convertNodeV2ToNodeV1 x)).Status = x.Status ∧
    convertNodeV1ToNodeV2 (convertNodeV2ToNodeV1 x) =
      { x with Metadata := { x.Metadata with Labels := none, Annotations := none } } ∧
    convertNodeV2ToNodeV1 (convertNodeV1ToNodeV2 y) = y ∧
    (convertNodeV2ToNodeV1 (convertNodeV1ToNodeV2 y)).ObjectMeta.ID = y.ObjectMeta.ID ∧
    (convertNodeV2ToNodeV1 (convertNodeV1ToNodeV2 y)).ObjectMeta.Name = y.ObjectMeta.Name ∧
    (convertNodeV2ToNodeV1 (convertNodeV1ToNodeV2 y)).ObjectMeta.CreationTimestamp =
      y.ObjectMeta.CreationTimestamp ∧
    (convertNodeV2ToNodeV1 (convertNodeV1ToNodeV2 y)).ObjectMeta.DeletionTimestamp =
      y.ObjectMeta.DeletionTimestamp ∧
    (convertNodeV2ToNodeV1 (convertNodeV1ToNodeV2 y)).Spec = y.Spec ∧
    (convertNodeV2ToNodeV1 (convertNodeV1ToNodeV2 y)).Status = y.Status :=
  ⟨rfl, rfl, rfl, rfl, rfl, rfl, rfl, rfl, rfl, rfl, rfl, rfl, rfl, rfl⟩

/-! ## Theorems: the node of a machine -/

theorem getNodeForMachine_append_of_match (machine : Machine) (pre post : List Node) (x : Node)
    (hpre : ∀ n ∈ pre, nodeMatchesMachine machine n = false)
    (hx : nodeMatchesMachine machine x = true) :
    getNodeForMachine machine (pre ++ x :: post) = some x := by
  induction pre with
  | nil => simp [getNodeForMachine, hx]
  | cons p rest ih =>
    have hp : nodeMatchesMachine machine p = false := hpre p (List.mem_cons_self _ _)
    have hrest : ∀ n ∈ rest, nodeMatchesMachine machine n = false :=
      fun n hn => hpre n (List.mem_cons_of_mem _ hn)
    simp [getNodeForMachine, hp, ih hrest]

theorem getNodeForMachine_mem (machine : Machine) (nodes : List Node) (n : Node)
    (h : getNodeForMachine machine nodes = some n) : n ∈ nodes := by
  induction nodes with
  | nil => simp [getNodeForMachine] at h
  | cons x rest ih =>
    unfold getNodeForMachine at h
    split at h
    · have e : x = n := Option.some.inj h
      simp [e]
    · exact List.mem_cons_of_mem _ (ih h)

/-- C2 as stated fails: with the same-named node B ahead of the UID-linked node
A in the list, getNodeForMachine returns B. -/
theorem C2_counterexample :
    nodeA ∈ [nodeB, nodeA] ∧ nodeB ∈ [nodeB, nodeA] ∧ nodeA ≠ nodeB ∧
    linkedMachine.Status.NodeRef = some ⟨nodeA.UID⟩ ∧
    nodeB.Name = linkedMachine.Name ∧
    getNodeForMachine linkedMachine [nodeB, nodeA] = some nodeB ∧
    getNodeForMachine linkedMachine [nodeB, nodeA] ≠ some nodeA := by
  decide

theorem nodeMatchesMachine_eq (machine : Machine) (n : Node) :
    nodeMatchesMachine machine n =
      decide (machine.Status.NodeRef = some ⟨n.UID⟩ ∨ n.Name = machine.Name) := by
  rw [Bool.eq_iff_iff]
  simp only [decide_eq_true_eq]
  unfold nodeMatchesMachine
  cases href : machine.Status.NodeRef with
  | none => simp
  | some ref =>
    cases ref with
    | mk uid =>
      simp only [Bool.or_eq_true, beq_iff_eq, Option.some.injEq, ObjectReference.mk.injEq]
      constructor
      · rintro (h | h)
        · exact Or.inl h.symm
        · exact Or.inr h
      · rintro (h | h)
        · exact Or.inl h.symm
        · exact Or.inr h

theorem getNodeForMachine_eq_find (machine : Machine) (nodes : List Node) :
    getNodeForMachine machine nodes =
      nodes.find? (fun n =>
        decide (machine.Status.NodeRef = some ⟨n.UID⟩ ∨ n.Name = machine.Name)) := by
  induction nodes with
  | nil => rfl
  | cons x rest ih =>
    unfold getNodeForMachine
    rw [List.find?_cons, ← nodeMatchesMachine_eq, ih]
    cases nodeMatchesMachine machine x <;> rfl

/-- C2, amended: for every machine and every node list, getNodeForMachine
returns the first node of the list, in list order, that is UID-linked to the
machine or carries its name, and nil when the list has no such node. So with A
the UID-linked node and B a node with the name of the machine, and no such
node ahead of them, it returns A when A comes before B in the list and B when
B comes before A. -/
theorem C2_getNodeForMachine_first_match (machine : Machine) (nodes : List Node) :
    getNodeForMachine machine nodes =
      nodes.find? (fun n =>
        decide (machine.Status.NodeRef = some ⟨n.UID⟩ ∨ n.Name = machine.Name)) ∧
    (∀ n, getNodeForMachine machine nodes = some n ↔
      (machine.Status.NodeRef = some ⟨n.UID⟩ ∨ n.Name = machine.Name) ∧
      ∃ pre post, nodes = pre ++ n :: post ∧
        ∀ x ∈ pre, ¬ (machine.Status.NodeRef = some ⟨x.UID⟩ ∨ x.Name = machine.Name)) ∧
    (getNodeForMachine machine nodes = none ↔
      ∀ x ∈ nodes, ¬ (machine.Status.NodeRef = some ⟨x.UID⟩ ∨ x.Name = machine.Name)) ∧
    (∀ (pre mid post : List Node) (A B : Node),
      machine.Status.NodeRef = some ⟨A.UID⟩ →
      B.Name = machine.Name →
      (∀ x ∈ pre, ¬ (machine.Status.NodeRef = some ⟨x.UID⟩ ∨ x.Name = machine.Name)) →
      getNodeForMachine machine (pre ++ A :: (mid ++ B :: post)) = some A ∧
      getNodeForMachine machine (pre ++ B :: (mid ++ A :: post)) = some B) := by
  refine ⟨getNodeForMachine_eq_find machine nodes, ?_, ?_, ?_⟩
  · intro n
    rw [getNodeForMachine_eq_find, List.find?_eq_some]
    simp only [decide_eq_true_eq, Bool.not_eq_eq_eq_not, Bool.not_true, decide_eq_false_iff_not]
  · rw [getNodeForMachine_eq_find, List.find?_eq_none]
    simp only [decide_eq_true_eq]
  · intro pre mid post A B hA hB hpre
    have hpre' : ∀ n ∈ pre, nodeMatchesMachine machine n = false := by
      intro n hn
      rw [nodeMatchesMachine_eq]
      exact decide_eq_false (hpre n hn)
    constructor
    · apply getNodeForMachine_append_of_match _ _ _ _ hpre'
      simp [nodeMatchesMachine, hA]
    · apply getNodeForMachine_append_of_match _ _ _ _ hpre'
      simp [nodeMatchesMachine, hB]

/-- C2 amended, at the linked machine with A first and with B first. -/
theorem C2_getNodeForMachine_first_match_witness :
    linkedMachine.Status.NodeRef = some ⟨nodeA.UID⟩ ∧
    nodeB.Name = linkedMachine.Name ∧
    getNodeForMachine linkedMachine ([] ++ nodeA :: ([] ++ nodeB :: [])) = some nodeA ∧
    getNodeForMachine linkedMachine ([] ++ nodeB :: ([] ++ nodeA :: [])) = some nodeB :=
  ⟨rfl, rfl,
   (C2_getNodeForMachine_first_match linkedMachine []).2.2.2 [] [] [] nodeA nodeB rfl rfl
     (by intro x hx; cases hx)⟩

/-! ## Theorems: the cloud-provider check -/

theorem cloudProviderCheck_eq (node : LegacyNode) :
    cloudProviderCheck node =
      if populatedSections node.Spec.Cloud = 0 then
        some (Err.badRequest "cannot create node without cloud provider")
      else none := by
  rcases node with ⟨md, ⟨⟨a, b, c, d, e, f⟩, os, v⟩, st⟩
  cases a <;> cases b <;> cases c <;> cases d <;> cases e <;> cases f <;>
    simp [cloudProviderCheck, populatedSections]

/-- C8 as stated fails: a create request with two populated provider sections
(Openstack and AWS) passes the cloud-provider check, and the endpoint, with
collaborators that succeed, answers with a read model and no bad-request
error. -/
theorem C8_counterexample :
    populatedSections (convertNodeV1ToNodeV2 twoProviderBody).Spec.Cloud = 2 ∧
    cloudProviderCheck (convertNodeV1ToNodeV2 twoProviderBody) = none ∧
    ∃ out, createNodeForCluster id sampleConversions sampleCreateCollaborators
      (grantedAccess sampleCluster) twoProviderBody 0 = Res.ok out := by
  refine ⟨by decide, by decide, ?_⟩
  exact ⟨_, rfl⟩

/-- C8, amended: the cloud-provider check of createNodeForCluster rejects a
create request, with a bad-request error, exactly when none of the provider
sections is populated; a request with one or more populated sections passes
the check. A request with no section makes the endpoint answer with that
bad-request error once the preceding lookups have succeeded. -/
theorem C8_cloudProviderCheck_rejects_only_empty (body : NodeV1) :
    (cloudProviderCheck (convertNodeV1ToNodeV2 body) =
        some (Err.badRequest "cannot create node without cloud provider") ↔
      populatedSections body.Spec.Cloud = 0) ∧
    (cloudProviderCheck (convertNodeV1ToNodeV2 body) = none ↔
      1 ≤ populatedSections body.Spec.Cloud) ∧
    (∀ (kubernetesErrorToHTTPError : Err → Err) (conv : MachineConversions)
        (c : CreateCollaborators) (cluster : Cluster) (keys : List String) (dc : String)
        (now : Int),
      c.sshKeyList = Except.ok keys → c.dcs cluster.DatacenterName = some dc →
      populatedSections body.Spec.Cloud = 0 →
      createNodeForCluster kubernetesErrorToHTTPError conv c (grantedAccess cluster) body now =
        Res.err (Err.badRequest "cannot create node without cloud provider")) := by
  have hspec : (convertNodeV1ToNodeV2 body).Spec.Cloud = body.Spec.Cloud := rfl
  refine ⟨?_, ?_, ?_⟩
  · rw [cloudProviderCheck_eq, hspec]
    by_cases h : populatedSections body.Spec.Cloud = 0 <;> simp [h]
  · rw [cloudProviderCheck_eq, hspec]
    by_cases h : populatedSections body.Spec.Cloud = 0
    · simp [h]
    · simp [h]; omega
  · intro toHTTP conv c cluster keys dc now hkeys hdc hzero
    have hcheck : cloudProviderCheck (convertNodeV1ToNodeV2 body) =
        some (Err.badRequest "cannot create node without cloud provider") := by
      rw [cloudProviderCheck_eq, hspec]; simp [hzero]
    simp [createNodeForCluster, grantedAccess, hkeys, hdc, hcheck]

/-- C8 amended, at a request with no provider section. -/
theorem C8_cloudProviderCheck_rejects_only_empty_witness :
    populatedSections noProviderBody.Spec.Cloud = 0 ∧
    createNodeForCluster id sampleConversions sampleCreateCollaborators
        (grantedAccess sampleCluster) noProviderBody 0 =
      Res.err (Err.badRequest "cannot create node without cloud provider") :=
  ⟨by decide,
   (C8_cloudProviderCheck_rejects_only_empty noProviderBody).2.2 id sampleConversions
     sampleCreateCollaborators sampleCluster [] "datacenter" 0 rfl rfl (by decide)⟩

/-! ## Theorems: the lookup by name -/

theorem firstNodeNamed_eq_none (name : String) (nodes : List Node) :
    firstNodeNamed name nodes = none ↔ ∀ n ∈ nodes, n.Name ≠ name := by
  induction nodes with
  | nil => simp [firstNodeNamed]
  | cons x rest ih =>
    unfold firstNodeNamed
    by_cases hx : x.Name = name <;> simp [hx, ih]

theorem firstMachineNamed_eq_none (name : String) (machines : List Machine) :
    firstMachineNamed name machines = none ↔ ∀ m ∈ machines, m.Name ≠ name := by
  induction machines with
  | nil => simp [firstMachineNamed]
  | cons x rest ih =>
    unfold firstMachineNamed
    by_cases hx : x.Name = name <;> simp [hx, ih]

theorem findMachineAndNode_eq (name : String) (machines : List Machine) (nodes : List Node) :
    findMachineAndNode name (Except.ok machines) (Except.ok nodes) =
      Res.ok
        (match firstNodeNamed name nodes, firstMachineNamed name machines with
         | none, none => (none, none)
         | some n, none => (getMachineForNode n machines, some n)
         | none, some m => (some m, getNodeForMachine m nodes)
         | some n, some m => (some m, some n)) := by
  unfold findMachineAndNode
  simp only []
  cases hn : firstNodeNamed name nodes with
  | none => cases hm : firstMachineNamed name machines <;> simp
  | some n =>
    cases hm : firstMachineNamed name machines with
    | none => cases hg : getMachineForNode n machines <;> simp
    | some m => simp

theorem findMachineAndNode_none_iff (name : String) (machines : List Machine)
    (nodes : List Node) :
    findMachineAndNode name (Except.ok machines) (Except.ok nodes) = Res.ok (none, none) ↔
      (∀ m ∈ machines, m.Name ≠ name) ∧ (∀ n ∈ nodes, n.Name ≠ name) := by
  rw [findMachineAndNode_eq, ← firstNodeNamed_eq_none, ← firstMachineNamed_eq_none]
  cases hn : firstNodeNamed name nodes <;> cases hm : firstMachineNamed name machines <;> simp

theorem findMachineAndNode_some (name : String) (machines : List Machine) (nodes : List Node)
    (h : (∃ m ∈ machines, m.Name = name) ∨ (∃ n ∈ nodes, n.Name = name)) :
    ∃ machine node,
      findMachineAndNode name (Except.ok machines) (Except.ok nodes) = Res.ok (machine, node) ∧
      (machine.isSome = true ∨ node.isSome = true) := by
  have hne : ¬ (firstNodeNamed name nodes = none ∧ firstMachineNamed name machines = none) := by
    rw [firstNodeNamed_eq_none, firstMachineNamed_eq_none]
    rintro ⟨h1, h2⟩
    rcases h with ⟨m, hm, e⟩ | ⟨n, hn, e⟩
    · exact h2 m hm e
    · exact h1 n hn e
  rw [findMachineAndNode_eq]
  cases hn : firstNodeNamed name nodes <;> cases hm : firstMachineNamed name machines
  · exact absurd ⟨hn, hm⟩ hne
  · exact ⟨_, _, rfl, Or.inl rfl⟩
  · exact ⟨_, _, rfl, Or.inr rfl⟩
  · exact ⟨_, _, rfl, Or.inl rfl⟩

theorem outputMachine_ne_notFound (conv : MachineConversions) (machine : Machine)
    (node : Option Node) (hide : Bool) (now : Int) (kind name : String) :
    outputMachine conv machine node hide now ≠ Res.err (Err.notFound kind name) := by
  intro h
  unfold outputMachine at h
  cases hr : machine.Status.ErrorReason <;> cases hm : machine.Status.ErrorMessage <;>
    cases hos : conv.GetAPIV2OperatingSystemSpec machine <;>
    cases hcloud : conv.GetAPIV2NodeCloudSpec machine <;>
    simp [hr, hm, hos, hcloud] at h

/-- C9: for every requested name and every pair of listed machine and node
collections, findMachineAndNode returns neither a machine nor a node if and
only if no machine and no node of the collections has that name, and then get
and delete answer NotFound; whenever some machine or node has that name, at
least one of the two results is present, get does not answer NotFound, and
delete goes on to the delete call of the store and answers with its outcome. -/
theorem C9_findMachineAndNode_not_found (name : String) (machines : List Machine)
    (nodes : List Node) (kubernetesErrorToHTTPError : Err → Err) (conv : MachineConversions)
    (cluster : Cluster) (hide : Bool) (now : Int)
    (deleteMachine : String → String → Option Err) (deleteNode : String → Option Err) :
    (findMachineAndNode name (Except.ok machines) (Except.ok nodes) = Res.ok (none, none) ↔
      (∀ m ∈ machines, m.Name ≠ name) ∧ (∀ n ∈ nodes, n.Name ≠ name)) ∧
    ((∃ m ∈ machines, m.Name = name) ∨ (∃ n ∈ nodes, n.Name = name) →
      ∃ machine node,
        findMachineAndNode name (Except.ok machines) (Except.ok nodes) =
          Res.ok (machine, node) ∧
        (machine.isSome = true ∨ node.isSome = true)) ∧
    (getNodeForCluster kubernetesErrorToHTTPError conv (grantedAccess cluster)
        (Except.ok machines) (Except.ok nodes) name hide now =
        Res.err (Err.notFound "Node" name) ↔
      (∀ m ∈ machines, m.Name ≠ name) ∧ (∀ n ∈ nodes, n.Name ≠ name)) ∧
    ((∀ m ∈ machines, m.Name ≠ name) ∧ (∀ n ∈ nodes, n.Name ≠ name) →
      deleteNodeForCluster kubernetesErrorToHTTPError (grantedAccess cluster)
        (Except.ok machines) (Except.ok nodes) deleteMachine deleteNode name =
        Res.err (Err.notFound "Node" name)) ∧
    ((∃ m ∈ machines, m.Name = name) ∨ (∃ n ∈ nodes, n.Name = name) →
      deleteNodeForCluster kubernetesErrorToHTTPError (grantedAccess cluster)
          (Except.ok machines) (Except.ok nodes) deleteMachine deleteNode name = Res.ok () ∨
      ∃ e, ((∃ namespace_ machineName, deleteMachine namespace_ machineName = some e) ∨
            (∃ nodeName, deleteNode nodeName = some e)) ∧
        deleteNodeForCluster kubernetesErrorToHTTPError (grantedAccess cluster)
          (Except.ok machines) (Except.ok nodes) deleteMachine deleteNode name =
          Res.err (kubernetesErrorToHTTPError e)) := by
  refine ⟨findMachineAndNode_none_iff name machines nodes,
    findMachineAndNode_some name machines nodes, ?_, ?_, ?_⟩
  · constructor
    · intro h
      by_contra hcon
      have hex : (∃ m ∈ machines, m.Name = name) ∨ (∃ n ∈ nodes, n.Name = name) := by
        by_contra hno
        apply hcon
        push_neg at hno
        exact ⟨hno.1, hno.2⟩
      obtain ⟨machine, node, hfind, hsome⟩ := findMachineAndNode_some name machines nodes hex
      unfold getNodeForCluster at h
      simp only [grantedAccess, hfind] at h
      cases machine with
      | some m =>
        simp only [] at h
        cases hout : outputMachine conv m node hide now with
        | ok v => rw [hout] at h; simp at h
        | nilDeref => rw [hout] at h; simp at h
        | err e =>
          rw [hout] at h
          simp only [Res.err.injEq] at h
          exact outputMachine_ne_notFound conv m node hide now "Node" name (by rw [hout, h])
      | none =>
        cases node with
        | some n => simp at h
        | none => simp at hsome
    · intro h
      have hfind := (findMachineAndNode_none_iff name machines nodes).2 h
      simp [getNodeForCluster, grantedAccess, hfind]
  · intro h
    have hfind := (findMachineAndNode_none_iff name machines nodes).2 h
    simp [deleteNodeForCluster, grantedAccess, hfind]
  · intro hex
    obtain ⟨machine, node, hfind, hsome⟩ := findMachineAndNode_some name machines nodes hex
    unfold deleteNodeForCluster
    simp only [grantedAccess, hfind]
    cases machine with
    | some m =>
      simp only []
      cases hd : deleteMachine m.Namespace m.Name with
      | none => exact Or.inl rfl
      | some e => exact Or.inr ⟨e, Or.inl ⟨_, _, hd⟩, rfl⟩
    | none =>
      cases node with
      | none => simp at hsome
      | some n =>
        simp only []
        cases hd : deleteNode n.Name with
        | none => exact Or.inl rfl
        | some e => exact Or.inr ⟨e, Or.inr ⟨_, hd⟩, rfl⟩

/-- C9, at a name no machine and no node carries, and at the name of a node. -/
theorem C9_findMachineAndNode_not_found_witness :
    ((∀ m ∈ [linkedMachine], m.Name ≠ "node-9") ∧ (∀ n ∈ [nodeA], n.Name ≠ "node-9")) ∧
    deleteNodeForCluster id (grantedAccess sampleCluster) (Except.ok [linkedMachine])
        (Except.ok [nodeA]) (fun _ _ => none) (fun _ => none) "node-9" =
      Res.err (Err.notFound "Node" "node-9") ∧
    ((∃ m ∈ [linkedMachine], m.Name = "node-a") ∨ (∃ n ∈ [nodeA], n.Name = "node-a")) ∧
    ∃ machine node,
      findMachineAndNode "node-a" (Except.ok [linkedMachine]) (Except.ok [nodeA]) =
        Res.ok (machine, node) ∧
      (machine.isSome = true ∨ node.isSome = true) :=
  ⟨by decide,
   (C9_findMachineAndNode_not_found "node-9" [linkedMachine] [nodeA] id sampleConversions
      sampleCluster false 0 (fun _ _ => none) (fun _ => none)).2.2.2.1 (by decide),
   by decide,
   (C9_findMachineAndNode_not_found "node-a" [linkedMachine] [nodeA] id sampleConversions
      sampleCluster false 0 (fun _ _ => none) (fun _ => none)).2.1 (by decide)⟩

/-! ## Theorems: the correlation -/

theorem correlateMachines_fst (nodes : List Node) (machines : List Machine)
    (entities : List CorrelatedEntity) (matched : StringSet) :
    (correlateMachines nodes machines (entities, matched)).1 =
      entities ++ machines.map
        (fun m => CorrelatedEntity.ofMachine m (getNodeForMachine m nodes)) := by
  induction machines generalizing entities matched with
  | nil => simp [correlateMachines]
  | cons m rest ih => simp [correlateMachines, ih]

theorem correlateMachines_snd_has (nodes : List Node) (machines : List Machine)
    (entities : List CorrelatedEntity) (matched : StringSet) (uid : String) :
    (correlateMachines nodes machines (entities, matched)).2.Has uid = true ↔
      matched.Has uid = true ∨ uid ∈ (matchedNodes machines nodes).map (fun n => n.UID) := by
  induction machines generalizing entities matched with
  | nil => simp [correlateMachines, matchedNodes]
  | cons m rest ih =>
    unfold correlateMachines
    simp only [ih]
    cases hg : getNodeForMachine m nodes with
    | none => simp [matchedNodes, hg]
    | some n =>
      simp only [matchedNodes, List.filterMap_cons, hg, List.map_cons, List.mem_cons]
      simp only [StringSet.Has, StringSet.Insert, List.contains_cons, Bool.or_eq_true,
        beq_iff_eq]
      constructor
      · rintro ((h | h) | h)
        · exact Or.inr (Or.inl h)
        · exact Or.inl h
        · exact Or.inr (Or.inr h)
      · rintro (h | h | h)
        · exact Or.inl (Or.inr h)
        · exact Or.inl (Or.inl h)
        · exact Or.inr h

theorem correlateNodes_eq (matched : StringSet) (nodes : List Node)
    (entities : List CorrelatedEntity) :
    correlateNodes matched nodes entities =
      entities ++ (nodes.filter (fun n => !matched.Has n.UID)).map CorrelatedEntity.ofNode := by
  induction nodes generalizing entities with
  | nil => simp [correlateNodes]
  | cons n rest ih =>
    unfold correlateNodes
    by_cases h : matched.Has n.UID = true
    · simp [h, ih]
    · have h' : matched.Has n.UID = false := by simpa using h
      simp [h', ih, List.filter_cons]

/-- The answer of the correlation: one entity for each machine, in order, then
one for each node whose UID was not recorded as matched. -/
theorem correlate_eq (machines : List Machine) (nodes : List Node) :
    correlate machines nodes =
      machines.map (fun m => CorrelatedEntity.ofMachine m (getNodeForMachine m nodes)) ++
      (nodes.filter (fun n => !decide (n.UID ∈ (matchedNodes machines nodes).map (fun n => n.UID)))).map
        CorrelatedEntity.ofNode := by
  unfold correlate
  simp only [correlateNodes_eq, correlateMachines_fst, List.nil_append]
  congr 2
  apply List.filter_congr
  intro n _
  have h := correlateMachines_snd_has nodes machines [] StringSet.NewString n.UID
  simp only [StringSet.NewString, StringSet.Has, List.contains_nil, Bool.false_eq_true,
    false_or] at h
  have h : n.UID ∈ (correlateMachines nodes machines ([], [])).2 ↔
      n.UID ∈ (matchedNodes machines nodes).map (fun n => n.UID) := by
    simpa using h
  simp only [StringSet.Has, StringSet.NewString, Bool.not_eq_eq_eq_not, Bool.not_not]
  by_cases hm : n.UID ∈ (matchedNodes machines nodes).map (fun n => n.UID)
  · have hc := h.2 hm
    simp [hc, hm]
  · have hc : n.UID ∉ (correlateMachines nodes machines ([], [])).2 := fun hc => hm (h.1 hc)
    simp [hc, hm]

theorem correlateMachines_snd_indep (nodes : List Node) (machines : List Machine)
    (e1 e2 : List CorrelatedEntity) (matched : StringSet) :
    (correlateMachines nodes machines (e1, matched)).2 =
      (correlateMachines nodes machines (e2, matched)).2 := by
  induction machines generalizing e1 e2 matched with
  | nil => rfl
  | cons m rest ih =>
    unfold correlateMachines
    exact ih _ _ _

theorem listMachinesLoop_eq (conv : MachineConversions) (nodes : List Node) (hide : Bool)
    (now : Int) (machines : List Machine) (acc : List LegacyNode) (matched : StringSet) :
    listMachinesLoop conv nodes hide now machines (acc, matched) =
      match outputEntities conv hide now
          (machines.map (fun m => CorrelatedEntity.ofMachine m (getNodeForMachine m nodes))) with
      | Res.ok outs => Res.ok (acc ++ outs, (correlateMachines nodes machines ([], matched)).2)
      | Res.err e => Res.err e
      | Res.nilDeref => Res.nilDeref := by
  induction machines generalizing acc matched with
  | nil => simp [listMachinesLoop, outputEntities, correlateMachines]
  | cons m rest ih =>
    simp only [listMachinesLoop, List.map_cons, outputEntities, outputEntity]
    cases hout : outputMachine conv m (getNodeForMachine m nodes) hide now with
    | err e => rfl
    | nilDeref => rfl
    | ok outNode =>
      simp only [ih]
      have hs : ∀ matched', (correlateMachines nodes rest ([], matched')).2 =
          (correlateMachines nodes rest
            ([] ++ [CorrelatedEntity.ofMachine m (getNodeForMachine m nodes)], matched')).2 :=
        fun matched' => correlateMachines_snd_indep nodes rest _ _ matched'
      cases hrest : outputEntities conv hide now
          (rest.map (fun m => CorrelatedEntity.ofMachine m (getNodeForMachine m nodes))) with
      | err e => rfl
      | nilDeref => rfl
      | ok outs =>
        simp only [correlateMachines, List.append_assoc, List.singleton_append]
        rw [← hs]

theorem listNodesLoop_eq (matched : StringSet) (hide : Bool) (now : Int) (nodes : List Node)
    (acc : List LegacyNode) :
    listNodesLoop matched hide now nodes acc =
      acc ++ (nodes.filter (fun n => !matched.Has n.UID)).map
        (fun n => outputNode n hide now) := by
  induction nodes generalizing acc with
  | nil => simp [listNodesLoop]
  | cons n rest ih =>
    unfold listNodesLoop
    by_cases h : matched.Has n.UID = true
    · simp [h, ih]
    · have h' : matched.Has n.UID = false := by simpa using h
      simp [h', ih, List.filter_cons]

theorem outputEntities_ofNode (conv : MachineConversions) (hide : Bool) (now : Int)
    (ys : List Node) :
    outputEntities conv hide now (ys.map CorrelatedEntity.ofNode) =
      Res.ok (ys.map (fun n => outputNode n hide now)) := by
  induction ys with
  | nil => rfl
  | cons y rest ih => simp [outputEntities, outputEntity, ih]

theorem outputEntities_append (conv : MachineConversions) (hide : Bool) (now : Int)
    (xs zs : List CorrelatedEntity) :
    outputEntities conv hide now (xs ++ zs) =
      match outputEntities conv hide now xs with
      | Res.ok outs =>
        (match outputEntities conv hide now zs with
         | Res.ok more => Res.ok (outs ++ more)
         | Res.err e => Res.err e
         | Res.nilDeref => Res.nilDeref)
      | Res.err e => Res.err e
      | Res.nilDeref => Res.nilDeref := by
  induction xs with
  | nil =>
    simp only [List.nil_append, outputEntities]
    cases outputEntities conv hide now zs <;> rfl
  | cons x rest ih =>
    rw [List.cons_append]
    simp only [outputEntities]
    cases hx : outputEntity conv hide now x with
    | err e => rfl
    | nilDeref => rfl
    | ok out =>
      simp only [ih]
      cases hr : outputEntities conv hide now rest with
      | err e => rfl
      | nilDeref => rfl
      | ok outs => cases hz : outputEntities conv hide now zs <;> rfl

/-- The endpoint listNodesForCluster answers with the read models of the
entities of the correlation, in order, adapted to the flat shape; it fails as
the first failing entity does. -/
theorem listNodesForCluster_eq_correlate (kubernetesErrorToHTTPError : Err → Err)
    (conv : MachineConversions) (cluster : Cluster) (machines : List Machine)
    (nodes : List Node) (hide : Bool) (now : Int) :
    listNodesForCluster kubernetesErrorToHTTPError conv (grantedAccess cluster)
        (Except.ok machines) (Except.ok nodes) hide now =
      match outputEntities conv hide now (correlate machines nodes) with
      | Res.ok outs => Res.ok (convertNodesV2ToNodesV1 outs)
      | Res.err e => Res.err e
      | Res.nilDeref => Res.nilDeref := by
  unfold listNodesForCluster correlate
  simp only [grantedAccess, listMachinesLoop_eq, correlateNodes_eq, correlateMachines_fst,
    List.nil_append, outputEntities_append, outputEntities_ofNode]
  cases outputEntities conv hide now
      (machines.map (fun m => CorrelatedEntity.ofMachine m (getNodeForMachine m nodes))) with
  | err e => rfl
  | nilDeref => rfl
  | ok outs => simp [listNodesLoop_eq]

theorem entities_length_eq (entities : List CorrelatedEntity) :
    entities.length =
      entities.countP (fun e => e.machine.isSome && e.node.isSome) +
      entities.countP (fun e => e.machine.isNone && e.node.isSome) +
      entities.countP (fun e => e.machine.isSome && e.node.isNone) := by
  induction entities with
  | nil => rfl
  | cons e rest ih =>
    have hm : ∀ m n, (CorrelatedEntity.ofMachine m n).machine = some m := fun _ _ => rfl
    have hn : ∀ m n, (CorrelatedEntity.ofMachine m n).node = n := fun _ _ => rfl
    have hm' : ∀ n, (CorrelatedEntity.ofNode n).machine = none := fun _ => rfl
    have hn' : ∀ n, (CorrelatedEntity.ofNode n).node = some n := fun _ => rfl
    rcases e with ⟨m, (_ | n)⟩ | n <;>
      simp only [List.countP_cons, List.length_cons, hm, hn, hm', hn', Option.isSome_some,
        Option.isSome_none, Option.isNone_some, Option.isNone_none, Bool.and_true,
        Bool.and_false, Bool.true_and, Bool.false_and, if_true, if_false,
        Bool.false_eq_true] <;>
      omega

theorem correlate_machines (machines : List Machine) (nodes : List Node) :
    (correlate machines nodes).filterMap (fun e => e.machine) = machines := by
  rw [correlate_eq, List.filterMap_append, List.filterMap_map, List.filterMap_map]
  have h1 : ((fun e : CorrelatedEntity => e.machine) ∘
      fun m => CorrelatedEntity.ofMachine m (getNodeForMachine m nodes)) = some := by
    funext m; rfl
  have h2 : ((fun e : CorrelatedEntity => e.machine) ∘ CorrelatedEntity.ofNode) =
      fun _ => none := by
    funext n; rfl
  rw [h1, h2, List.filterMap_some]
  simp

theorem correlate_nodes (machines : List Machine) (nodes : List Node) :
    (correlate machines nodes).filterMap (fun e => e.node) =
      matchedNodes machines nodes ++
      nodes.filter (fun n => !decide (n.UID ∈ (matchedNodes machines nodes).map (fun n => n.UID))) := by
  rw [correlate_eq, List.filterMap_append, List.filterMap_map, List.filterMap_map]
  have h1 : ((fun e : CorrelatedEntity => e.node) ∘
      fun m => CorrelatedEntity.ofMachine m (getNodeForMachine m nodes)) =
      fun m => getNodeForMachine m nodes := by
    funext m; rfl
  have h2 : ((fun e : CorrelatedEntity => e.node) ∘ CorrelatedEntity.ofNode) = some := by
    funext n; rfl
  rw [h1, h2, List.filterMap_some]
  rfl

theorem matchedNodes_subset (machines : List Machine) (nodes : List Node) (n : Node)
    (h : n ∈ matchedNodes machines nodes) : n ∈ nodes := by
  unfold matchedNodes at h
  rw [List.mem_filterMap] at h
  obtain ⟨m, -, hm⟩ := h
  exact getNodeForMachine_mem m nodes n hm

theorem correlate_nodes_perm (machines : List Machine) (nodes : List Node)
    (huid : (nodes.map (fun n => n.UID)).Nodup)
    (hone : ((matchedNodes machines nodes).map (fun n => n.UID)).Nodup) :
    ((correlate machines nodes).filterMap (fun e => e.node)).Perm nodes := by
  rw [correlate_nodes]
  have hsplit := List.filter_append_perm
    (fun n : Node => decide (n.UID ∈ (matchedNodes machines nodes).map (fun n => n.UID))) nodes
  refine List.Perm.trans (List.Perm.append_right _ ?_) hsplit
  have hnodes : nodes.Nodup := List.Nodup.of_map _ huid
  have hmatched : (matchedNodes machines nodes).Nodup := List.Nodup.of_map _ hone
  rw [List.perm_ext_iff_of_nodup hmatched (hnodes.filter _)]
  intro x
  rw [List.mem_filter]
  constructor
  · intro hx
    refine ⟨matchedNodes_subset machines nodes x hx, ?_⟩
    simp only [decide_eq_true_eq, List.mem_map]
    exact ⟨x, hx, rfl⟩
  · rintro ⟨hx, hu⟩
    simp only [decide_eq_true_eq, List.mem_map] at hu
    obtain ⟨y, hy, hyx⟩ := hu
    have e : y = x :=
      List.inj_on_of_nodup_map huid (matchedNodes_subset machines nodes y hy) hx hyx
    rw [← e]
    exact hy

/-- The hypothesis on the UIDs is needed: of two nodes that carry one UID, the
second is left out once the first is matched with a machine. -/
theorem correlate_shared_uid_leaves_out_node :
    correlate [machineByName] [sharedNode, sharedUidNode] =
      [CorrelatedEntity.ofMachine machineByName (some sharedNode)] := by
  decide

/-- C1 as stated fails: a machine that finds the node by name and a machine
that references the same node by UID are both paired with it, so the node is in
two output entities and the nodes of the entities are not the nodes of the
input, each once. -/
theorem C1_counterexample :
    correlate [machineByName, machineByRef] [sharedNode] =
      [CorrelatedEntity.ofMachine machineByName (some sharedNode),
       CorrelatedEntity.ofMachine machineByRef (some sharedNode)] ∧
    ((correlate [machineByName, machineByRef] [sharedNode]).filter
      (fun e => decide (e.node = some sharedNode))).length = 2 ∧
    ¬ ExactlyOnce [machineByName, machineByRef] [sharedNode]
      (correlate [machineByName, machineByRef] [sharedNode]) := by
  have h : correlate [machineByName, machineByRef] [sharedNode] =
      [CorrelatedEntity.ofMachine machineByName (some sharedNode),
       CorrelatedEntity.ofMachine machineByRef (some sharedNode)] := by
    decide
  refine ⟨h, ?_, ?_⟩
  · rw [h]; decide
  · rintro ⟨-, hperm, -⟩
    rw [h] at hperm
    have hlen := hperm.length_eq
    simp [CorrelatedEntity.node] at hlen

theorem correlate_countP_pairs (machines : List Machine) (nodes : List Node) :
    (correlate machines nodes).countP (fun e => e.machine.isSome && e.node.isSome) =
      (machines.filter (fun m => (getNodeForMachine m nodes).isSome)).length := by
  rw [correlate_eq, List.countP_append, List.countP_map, List.countP_map,
    List.countP_eq_length_filter, List.countP_eq_length_filter]
  have h1 : ((fun e : CorrelatedEntity => e.machine.isSome && e.node.isSome) ∘
      fun m => CorrelatedEntity.ofMachine m (getNodeForMachine m nodes)) =
      fun m => (getNodeForMachine m nodes).isSome := by
    funext m; simp [CorrelatedEntity.machine, CorrelatedEntity.node]
  have h2 : ((fun e : CorrelatedEntity => e.machine.isSome && e.node.isSome) ∘
      CorrelatedEntity.ofNode) = fun _ => false := by
    funext n; simp [CorrelatedEntity.machine]
  rw [h1, h2]
  simp

theorem correlate_countP_machineOnly (machines : List Machine) (nodes : List Node) :
    (correlate machines nodes).countP (fun e => e.machine.isSome && e.node.isNone) =
      (machines.filter (fun m => (getNodeForMachine m nodes).isNone)).length := by
  rw [correlate_eq, List.countP_append, List.countP_map, List.countP_map,
    List.countP_eq_length_filter, List.countP_eq_length_filter]
  have h1 : ((fun e : CorrelatedEntity => e.machine.isSome && e.node.isNone) ∘
      fun m => CorrelatedEntity.ofMachine m (getNodeForMachine m nodes)) =
      fun m => (getNodeForMachine m nodes).isNone := by
    funext m; simp [CorrelatedEntity.machine, CorrelatedEntity.node]
  have h2 : ((fun e : CorrelatedEntity => e.machine.isSome && e.node.isNone) ∘
      CorrelatedEntity.ofNode) = fun _ => false := by
    funext n; simp [CorrelatedEntity.machine]
  rw [h1, h2]
  simp

theorem correlate_countP_nodeOnly (machines : List Machine) (nodes : List Node) :
    (correlate machines nodes).countP (fun e => e.machine.isNone && e.node.isSome) =
      (nodes.filter (fun n =>
        !decide (n.UID ∈ (matchedNodes machines nodes).map (fun n => n.UID)))).length := by
  rw [correlate_eq, List.countP_append, List.countP_map, List.countP_map,
    List.countP_eq_length_filter, List.countP_eq_length_filter]
  have h1 : ((fun e : CorrelatedEntity => e.machine.isNone && e.node.isSome) ∘
      fun m => CorrelatedEntity.ofMachine m (getNodeForMachine m nodes)) =
      fun _ => false := by
    funext m; simp [CorrelatedEntity.machine]
  have h2 : ((fun e : CorrelatedEntity => e.machine.isNone && e.node.isSome) ∘
      CorrelatedEntity.ofNode) = fun _ => true := by
    funext n; simp [CorrelatedEntity.machine, CorrelatedEntity.node]
  rw [h1, h2]
  simp

theorem correlate_nodes_subset (machines : List Machine) (nodes : List Node) (n : Node)
    (h : n ∈ (correlate machines nodes).filterMap (fun e => e.node)) : n ∈ nodes := by
  rw [correlate_nodes, List.mem_append] at h
  rcases h with h | h
  · exact matchedNodes_subset machines nodes n h
  · exact (List.mem_filter.1 h).1

theorem mem_matchedUIDs_iff (machines : List Machine) (nodes : List Node)
    (huid : (nodes.map (fun n => n.UID)).Nodup) (n : Node) (hn : n ∈ nodes) :
    n.UID ∈ (matchedNodes machines nodes).map (fun n => n.UID) ↔
      n ∈ matchedNodes machines nodes := by
  constructor
  · intro h
    obtain ⟨y, hy, hyx⟩ := List.mem_map.1 h
    have e : y = n :=
      List.inj_on_of_nodup_map huid (matchedNodes_subset machines nodes y hy) hn hyx
    rw [← e]
    exact hy
  · intro h
    exact List.mem_map.2 ⟨n, h, rfl⟩

theorem correlate_nodes_count (machines : List Machine) (nodes : List Node)
    (huid : (nodes.map (fun n => n.UID)).Nodup) (n : Node) (hn : n ∈ nodes) :
    ((correlate machines nodes).filterMap (fun e => e.node)).count n =
      max 1 ((matchedNodes machines nodes).count n) := by
  have hnodes : nodes.Nodup := List.Nodup.of_map _ huid
  rw [correlate_nodes, List.count_append, List.count_eq_of_nodup (hnodes.filter _)]
  by_cases hm : n ∈ matchedNodes machines nodes
  · have hu := (mem_matchedUIDs_iff machines nodes huid n hn).2 hm
    have hpos : 0 < (matchedNodes machines nodes).count n := List.count_pos_iff.2 hm
    have hout : n ∉ nodes.filter (fun n =>
        !decide (n.UID ∈ (matchedNodes machines nodes).map (fun n => n.UID))) := by
      intro h
      have := (List.mem_filter.1 h).2
      simp [hu] at this
    rw [if_neg hout]
    omega
  · have hu : n.UID ∉ (matchedNodes machines nodes).map (fun n => n.UID) :=
      fun h => hm ((mem_matchedUIDs_iff machines nodes huid n hn).1 h)
    have hzero : (matchedNodes machines nodes).count n = 0 := List.count_eq_zero.2 hm
    have hin : n ∈ nodes.filter (fun n =>
        !decide (n.UID ∈ (matchedNodes machines nodes).map (fun n => n.UID))) := by
      apply List.mem_filter.2
      exact ⟨hn, by simp [hu]⟩
    rw [if_pos hin, hzero]
    rfl

theorem exactlyOnce_iff (machines : List Machine) (nodes : List Node)
    (huid : (nodes.map (fun n => n.UID)).Nodup) :
    ExactlyOnce machines nodes (correlate machines nodes) ↔
      (matchedNodes machines nodes).Nodup := by
  have hnodes : nodes.Nodup := List.Nodup.of_map _ huid
  constructor
  · rintro ⟨-, hperm, -⟩
    have hnd := hperm.nodup_iff.2 hnodes
    rw [correlate_nodes] at hnd
    exact List.Nodup.of_append_left hnd
  · intro hone
    have hone' : ((matchedNodes machines nodes).map (fun n => n.UID)).Nodup := by
      apply List.Nodup.map_on _ hone
      intro x hx y hy hxy
      exact List.inj_on_of_nodup_map huid (matchedNodes_subset machines nodes x hx)
        (matchedNodes_subset machines nodes y hy) hxy
    exact ⟨correlate_machines machines nodes,
      correlate_nodes_perm machines nodes huid hone', entities_length_eq _⟩

/-- C1, amended: for every list of machines and every list of nodes, the
correlation of listNodesForCluster places every machine in exactly one output
entity; the output holds one pair for each machine getNodeForMachine finds a
node for, one machine alone for each machine it finds none for, and one node
alone for each node whose UID was not recorded as matched, and nothing else;
every node of the output is a node of the input. When the UIDs of the nodes
are pairwise distinct, no node is dropped, and a node is in as many entities
as machines are matched with it, and in one when none is: so every node is in
exactly one entity if and only if no two machines are matched with the same
node. -/
theorem C1_correlate_exactly_once (machines : List Machine) (nodes : List Node) :
    (correlate machines nodes).filterMap (fun e => e.machine) = machines ∧
    (correlate machines nodes).countP (fun e => e.machine.isSome && e.node.isSome) =
      (machines.filter (fun m => (getNodeForMachine m nodes).isSome)).length ∧
    (correlate machines nodes).countP (fun e => e.machine.isNone && e.node.isSome) =
      (nodes.filter (fun n =>
        !decide (n.UID ∈ (matchedNodes machines nodes).map (fun n => n.UID)))).length ∧
    (correlate machines nodes).countP (fun e => e.machine.isSome && e.node.isNone) =
      (machines.filter (fun m => (getNodeForMachine m nodes).isNone)).length ∧
    (correlate machines nodes).length =
      (machines.filter (fun m => (getNodeForMachine m nodes).isSome)).length +
      (nodes.filter (fun n =>
        !decide (n.UID ∈ (matchedNodes machines nodes).map (fun n => n.UID)))).length +
      (machines.filter (fun m => (getNodeForMachine m nodes).isNone)).length ∧
    (∀ n ∈ (correlate machines nodes).filterMap (fun e => e.node), n ∈ nodes) ∧
    ((nodes.map (fun n => n.UID)).Nodup →
      (∀ n ∈ nodes, n ∈ (correlate machines nodes).filterMap (fun e => e.node)) ∧
      (∀ n ∈ nodes, ((correlate machines nodes).filterMap (fun e => e.node)).count n =
        max 1 ((matchedNodes machines nodes).count n)) ∧
      (∀ n ∈ nodes, ((correlate machines nodes).filterMap (fun e => e.node)).count n = 1 ↔
        (matchedNodes machines nodes).count n ≤ 1) ∧
      (ExactlyOnce machines nodes (correlate machines nodes) ↔
        (matchedNodes machines nodes).Nodup)) := by
  refine ⟨correlate_machines machines nodes, correlate_countP_pairs machines nodes,
    correlate_countP_nodeOnly machines nodes, correlate_countP_machineOnly machines nodes,
    ?_, correlate_nodes_subset machines nodes, ?_⟩
  · rw [entities_length_eq, correlate_countP_pairs, correlate_countP_nodeOnly,
      correlate_countP_machineOnly]
  · intro huid
    refine ⟨?_, correlate_nodes_count machines nodes huid, ?_,
      exactlyOnce_iff machines nodes huid⟩
    · intro n hn
      apply List.count_pos_iff.1
      rw [correlate_nodes_count machines nodes huid n hn]
      omega
    · intro n hn
      rw [correlate_nodes_count machines nodes huid n hn]
      omega

/-- C1 amended, at two machines and three nodes with distinct UIDs: one
machine is matched by name, one by UID, and one node has no machine; every
node is in exactly one entity. -/
theorem C1_correlate_exactly_once_witness :
    ([sharedNode, nodeA, nodeB].map (fun n => n.UID)).Nodup ∧
    (matchedNodes [machineByName, linkedMachine] [sharedNode, nodeA, nodeB]).Nodup ∧
    ExactlyOnce [machineByName, linkedMachine] [sharedNode, nodeA, nodeB]
      (correlate [machineByName, linkedMachine] [sharedNode, nodeA, nodeB]) :=
  ⟨by decide, by decide,
   ((C1_correlate_exactly_once [machineByName, linkedMachine]
      [sharedNode, nodeA, nodeB]).2.2.2.2.2.2 (by decide)).2.2.2.2 (by decide)⟩

/-! ## Theorems: the read model never fails -/

/-- C11: for the machine whose terminal error reason is set and whose error
message is nil, outputMachine dereferences the nil message and returns no read
model, whatever the node and although the OS and cloud spec extraction would
succeed; with the three other combinations of set and unset reason and message
it returns a read model, as outputNode always does. -/
theorem C11_outputMachine_nil_message (conv : MachineConversions) (node : Option Node)
    (hide : Bool) (now : Int) :
    outputMachine conv reasonOnlyMachine node hide now = Res.nilDeref ∧
    outputMachine sampleConversions reasonOnlyMachine node hide now = Res.nilDeref ∧
    (∃ os cloud, sampleConversions.GetAPIV2OperatingSystemSpec reasonOnlyMachine = Except.ok os ∧
      sampleConversions.GetAPIV2NodeCloudSpec reasonOnlyMachine = Except.ok cloud) ∧
    (∃ out, outputMachine sampleConversions failedMachine node hide now = Res.ok out) ∧
    (∃ out, outputMachine sampleConversions messageOnlyMachine node hide now = Res.ok out) ∧
    (∃ out, outputMachine sampleConversions healthyMachine node hide now = Res.ok out) := by
  have hnil : ∀ c : MachineConversions,
      outputMachine c reasonOnlyMachine node hide now = Res.nilDeref := by
    intro c
    simp [outputMachine, reasonOnlyMachine, sampleMachine]
  refine ⟨hnil conv, hnil sampleConversions, ⟨_, _, rfl, rfl⟩, ?_, ?_, ?_⟩
  · obtain ⟨out, hout, -⟩ :=
      outputMachine_eq sampleConversions failedMachine node hide now _ _ _ rfl rfl rfl
    exact ⟨out, hout⟩
  · obtain ⟨out, hout, -⟩ :=
      outputMachine_eq sampleConversions messageOnlyMachine node hide now _ _ _ rfl rfl rfl
    exact ⟨out, hout⟩
  · obtain ⟨out, hout, -⟩ :=
      outputMachine_eq sampleConversions healthyMachine node hide now _ _ _ rfl rfl rfl
    exact ⟨out, hout⟩

/-! ## Theorems: the access-grant templates -/

theorem roleCreator_eq (r : Role) :
    KubeSchedulerRoleCreatorGetter.2 (some r) =
      Res.ok { r with
        Name := "system:openshift:sa-leader-election-configmaps",
        Namespace := "openshift-kube-scheduler",
        Rules := [⟨["get", "create", "update"], [""], ["configmaps"], [], []⟩] } :=
  rfl

theorem roleBindingCreator_eq (resources : ResourcesConstants) (rb : RoleBinding) :
    (KubeSchedulerRoleBindingCreatorGetter resources).2 (some rb) =
      Res.ok { rb with
        Name := "system:openshift:sa-leader-election-configmaps",
        Namespace := "openshift-kube-scheduler",
        RoleRef := ⟨GroupName, "Role", "system:openshift:sa-leader-election-configmaps"⟩,
        Subjects := [⟨UserKind, GroupName, resources.SchedulerCertUsername, ""⟩] } :=
  rfl

/-- C12: for every role and every role binding handed to them, the creators of
KubeSchedulerRoleCreatorGetter and KubeSchedulerRoleBindingCreatorGetter return
an object and no error; the object has the name
"system:openshift:sa-leader-election-configmaps", the namespace
"openshift-kube-scheduler" and the fixed rules (get, create and update on
configmaps of the core group), or the fixed role reference and subjects,
whatever the input had in those fields (two inputs give the same values, and
the other fields are kept); and the creator applied to its own output returns
that output unchanged. -/
theorem C12_templates_deterministic_idempotent (resources : ResourcesConstants)
    (r r2 : Role) (rb rb2 : RoleBinding) :
    (∃ out out2,
      KubeSchedulerRoleCreatorGetter.2 (some r) = Res.ok out ∧
      KubeSchedulerRoleCreatorGetter.2 (some r2) = Res.ok out2 ∧
      out.Name = "system:openshift:sa-leader-election-configmaps" ∧
      out.Namespace = "openshift-kube-scheduler" ∧
      out.Rules = [⟨["get", "create", "update"], [""], ["configmaps"], [], []⟩] ∧
      out2.Name = out.Name ∧ out2.Namespace = out.Namespace ∧ out2.Rules = out.Rules ∧
      out.Labels = r.Labels ∧ out.Annotations = r.Annotations ∧
      out.ResourceVersion = r.ResourceVersion ∧ out.UID = r.UID ∧
      KubeSchedulerRoleCreatorGetter.2 (some out) = Res.ok out) ∧
    (∃ out out2,
      (KubeSchedulerRoleBindingCreatorGetter resources).2 (some rb) = Res.ok out ∧
      (KubeSchedulerRoleBindingCreatorGetter resources).2 (some rb2) = Res.ok out2 ∧
      out.Name = "system:openshift:sa-leader-election-configmaps" ∧
      out.Namespace = "openshift-kube-scheduler" ∧
      out.RoleRef =
        { Name := "system:openshift:sa-leader-election-configmaps", Kind := "Role",
          APIGroup := GroupName } ∧
      out.Subjects =
        [{ Kind := UserKind, Name := resources.SchedulerCertUsername, APIGroup := GroupName,
           Namespace := "" }] ∧
      out2.Name = out.Name ∧ out2.Namespace = out.Namespace ∧
      out2.RoleRef = out.RoleRef ∧ out2.Subjects = out.Subjects ∧
      out.Labels = rb.Labels ∧ out.Annotations = rb.Annotations ∧
      out.ResourceVersion = rb.ResourceVersion ∧ out.UID = rb.UID ∧
      (KubeSchedulerRoleBindingCreatorGetter resources).2 (some out) = Res.ok out) := by
  constructor
  · refine ⟨_, _, roleCreator_eq r, roleCreator_eq r2, rfl, rfl, rfl, rfl, rfl, rfl, rfl, rfl,
      rfl, rfl, ?_⟩
    rw [roleCreator_eq]
  · refine ⟨_, _, roleBindingCreator_eq resources rb, roleBindingCreator_eq resources rb2,
      rfl, rfl, rfl, rfl, rfl, rfl, rfl, rfl, rfl, rfl, rfl, rfl, ?_⟩
    rw [roleBindingCreator_eq]

/-- The creators dereference the pointer they are handed: a nil pointer is no
input object and gives no result. The name the binding getter returns is the
constant of the machine controller binding, not the name its creator sets. -/
theorem creators_on_nil (resources : ResourcesConstants) :
    KubeSchedulerRoleCreatorGetter.2 none = Res.nilDeref ∧
    (KubeSchedulerRoleBindingCreatorGetter resources).2 none = Res.nilDeref ∧
    KubeSchedulerRoleCreatorGetter.1 = "system:openshift:sa-leader-election-configmaps" ∧
    (KubeSchedulerRoleBindingCreatorGetter resources).1 =
      resources.MachineControllerRoleBindingName :=
  ⟨rfl, rfl, rfl, rfl⟩

end Kubermatic
